import Mathlib

set_option maxRecDepth 100000

/-!
Verification of the core transformation pipeline of pid2bib (src/pid2bib.py):
extraction of a bibliographic `Reference` from a PubMed XML document
(`parseXML`), serialization into BibTeX (`createBibtexContent` and its
helpers), Unicode-to-LaTeX escaping (`sanitizeBibtexField`), filename
sanitization (`sanitizeFileName`) and title recovery from raw BibTeX
(`getTitle`).

Embedding conventions:
* An `xml.etree.ElementTree` element is modelled by the inductive type `XML`
  (tag, attribute list, text, children).  `Element.text` of `None` is
  modelled as the empty string `""`; the claims under study never depend on
  the distinction between a missing text and an empty text.
* Python code that can raise is modelled in `Except String`; the error
  string names the Python exception that the corresponding expression
  raises (`AttributeError` from calling `.find` on `None`, `TypeError` from
  iterating `None`, `KeyError` from a missing dict key, `IndexError` from
  indexing an empty string).
* `fromstring` (XML parsing proper) is out of scope: `parseXML` here takes
  the already parsed tree, exactly as the Python body does after its first
  line.
-/

/-- Model of an `xml.etree.ElementTree` element: tag name, attribute
dictionary, text content (Python `None` text modelled as `""`) and the list
of child elements in document order. -/
inductive XML where
  | elem (tag : String) (attrs : List (String × String)) (text : String)
      (children : List XML)

def XML.tag : XML → String
  | .elem t _ _ _ => t

def XML.attrs : XML → List (String × String)
  | .elem _ a _ _ => a

def XML.text : XML → String
  | .elem _ _ s _ => s

def XML.children : XML → List XML
  | .elem _ _ _ c => c

/-- `Element.find(tag)`: first child whose tag matches, or `None`. -/
def XML.find (e : XML) (t : String) : Option XML :=
  e.children.find? (fun c => c.tag == t)

/-- `Element.findall(tag)`: all children whose tag matches. -/
def XML.findall (e : XML) (t : String) : List XML :=
  e.children.filter (fun c => c.tag == t)

/-- Python text-or-empty: `e.text` when the node exists, else the empty string. -/
def textIfSome : Option XML → String
  | some e => e.text
  | none => ""

/-- Using a possibly-`None` node where Python would raise on `None`
(`None.find(...)` raises `AttributeError`; `for x in None` raises
`TypeError`). -/
def expectNode (e : Option XML) (msg : String) : Except String XML :=
  match e with
  | some x => Except.ok x
  | none => Except.error msg

def attrErr : String := "AttributeError: NoneType object has no attribute find"

def iterErr : String := "TypeError: NoneType object is not iterable"

/-- The `Author` class of src/pid2bib.py: four free-text fields, default
empty. -/
structure Author where
  lastName : String := ""
  foreName : String := ""
  initials : String := ""
  institution : String := ""
deriving DecidableEq

/-- The `Reference` class of src/pid2bib.py: a bibliographic entry keyed by
`pmid`, every other field defaulting to empty. -/
structure Reference where
  pmid : String
  title : String := ""
  authors : List Author := []
  journal : String := ""
  volume : String := ""
  issue : String := ""
  startPage : String := ""
  endPage : String := ""
  doi : String := ""
  pbyear : String := ""
  pbmonth : String := ""
  issn : String := ""
  journalAb : String := ""
  copyright : String := ""
  article_url : String := ""
  abstract : String := ""
deriving DecidableEq

/-- The loop `for articleId in (...ArticleIdList...)` of `parseXML`
(src/pid2bib.py lines 116-118): scan the identifier elements in order,
remembering the text of the last one whose `IdType` attribute is `doi`.
A missing `IdType` attribute raises `KeyError` in Python. -/
def getDoi : List XML → String → Except String String
  | [], doi => Except.ok doi
  | articleId :: rest, doi =>
    match articleId.attrs.lookup "IdType" with
    | none => Except.error "KeyError: IdType"
    | some idType => getDoi rest (if idType == "doi" then articleId.text else doi)

/-- The body of the author loop of `parseXML` (src/pid2bib.py lines
167-181): every per-author node is extracted defensively. -/
def parseAuthor (authorElem : XML) : Author :=
  { lastName := textIfSome (authorElem.find "LastName")
    foreName := textIfSome (authorElem.find "ForeName")
    initials := textIfSome (authorElem.find "Initials")
    institution :=
      match authorElem.find "AffiliationInfo" with
      | some affiElem => textIfSome (affiElem.find "Affiliation")
      | none => "" }

/-- The journal-related fields assigned by `parseXML`. -/
structure JournalFields where
  journal : String
  issn : String
  journalAb : String
  volume : String
  issue : String
  pbyear : String
  pbmonth : String
deriving DecidableEq

/-- The `journalElement` block of `parseXML` (src/pid2bib.py lines 140-158).
`Title`, `ISSN`, `ISOAbbreviation` and the `PubDate` descent are guarded,
but `jissueElem = journalElement.find("JournalIssue")` is used unguarded:
when `JournalIssue` is absent, `jissueElem.find("Volume")` is
`None.find(...)`, an `AttributeError`. -/
def extractJournal (journalOpt : Option XML) : Except String JournalFields :=
  match journalOpt with
  | none => Except.ok ⟨"", "", "", "", "", "", ""⟩
  | some journalElement =>
    let journal := textIfSome (journalElement.find "Title")
    let issn := textIfSome (journalElement.find "ISSN")
    let journalAb := textIfSome (journalElement.find "ISOAbbreviation")
    match expectNode (journalElement.find "JournalIssue") attrErr with
    | Except.error e => Except.error e
    | Except.ok jissueElem =>
      let volume := textIfSome (jissueElem.find "Volume")
      let issue := textIfSome (jissueElem.find "Issue")
      let (pbyear, pbmonth) :=
        match jissueElem.find "PubDate" with
        | none => ("", "")
        | some dateElem =>
          (textIfSome (dateElem.find "Year"), textIfSome (dateElem.find "Month"))
      Except.ok ⟨journal, issn, journalAb, volume, issue, pbyear, pbmonth⟩

/-- The `article` part of `parseXML` (src/pid2bib.py lines 127-183): title,
abstract and copyright, journal block, pagination and the author loop.
`Abstract` and `Pagination` are guarded, but
`for authorElem in article.find("AuthorList")` iterates the result of
`find` unguarded: when `AuthorList` is absent this is `for ... in None`, a
`TypeError`. -/
def parseArticle (pmid doi article_url : String) (article : XML) :
    Except String Reference :=
  let title := textIfSome (article.find "ArticleTitle")
  let (abstract, copyrightText) :=
    match article.find "Abstract" with
    | none => ("", "")
    | some absElem =>
      (textIfSome (absElem.find "AbstractText"),
       textIfSome (absElem.find "CopyrightInformation"))
  match extractJournal (article.find "Journal") with
  | Except.error e => Except.error e
  | Except.ok jf =>
    let (startPage, endPage) :=
      match article.find "Pagination" with
      | none => ("", "")
      | some pagElem =>
        (textIfSome (pagElem.find "StartPage"), textIfSome (pagElem.find "EndPage"))
    match expectNode (article.find "AuthorList") iterErr with
    | Except.error e => Except.error e
    | Except.ok authorList =>
      Except.ok
        { pmid := pmid
          title := title
          authors := authorList.children.map parseAuthor
          journal := jf.journal
          volume := jf.volume
          issue := jf.issue
          startPage := startPage
          endPage := endPage
          doi := doi
          pbyear := jf.pbyear
          pbmonth := jf.pbmonth
          issn := jf.issn
          journalAb := jf.journalAb
          copyright := copyrightText
          article_url := article_url
          abstract := abstract }

/-- `parseXML` of src/pid2bib.py (lines 103-183), taking the parsed XML tree
(the `PubmedArticleSet` root that `fromstring` returns).  The record list,
`PubmedData`, `ArticleIdList`, `MedlineCitation` and `Article` descents can
all raise; the DOI scan and the derivation of `article_url` happen before
the article fields are read, exactly as in the source. -/
def parseXML (pmid : String) (xmlRoot : XML) : Except String Reference :=
  match xmlRoot.findall "PubmedArticle" with
  | [] => Except.error "Empty result for the given pubmed id"
  | pubmedArticle :: _ =>
    match expectNode (pubmedArticle.find "PubmedData") attrErr with
    | Except.error e => Except.error e
    | Except.ok pubmedData =>
      match expectNode (pubmedData.find "ArticleIdList") iterErr with
      | Except.error e => Except.error e
      | Except.ok articleIdList =>
        match getDoi articleIdList.children "" with
        | Except.error e => Except.error e
        | Except.ok doi =>
          let article_url :=
            if doi == "" then "https://pubmed.ncbi.nlm.nih.gov/" ++ pmid ++ "/"
            else "https://doi.org/" ++ doi
          match expectNode (pubmedArticle.find "MedlineCitation") attrErr with
          | Except.error e => Except.error e
          | Except.ok medlineCitation =>
            match expectNode (medlineCitation.find "Article") attrErr with
            | Except.error e => Except.error e
            | Except.ok article => parseArticle pmid doi article_url article

/-- `formatAuthor` of src/pid2bib.py (lines 201-208). -/
def formatAuthor (author : Author) : String :=
  author.lastName ++ ", " ++ author.initials ++ "."

/-- The author join of `createBibtexContent` (src/pid2bib.py lines
2626-2630): authors joined by the separator `" and "`, with the
explicit empty-list branch of the source. -/
def authorsText (reference : Reference) : String :=
  if reference.authors.length > 0 then
    String.intercalate " and " (reference.authors.map formatAuthor)
  else ""

/-- The page join of `createBibtexContent` (src/pid2bib.py lines 2631-2634):
the branch tests only `reference.endPage`. -/
def pagesText (reference : Reference) : String :=
  if reference.endPage != "" then
    reference.startPage ++ "--" ++ reference.endPage
  else reference.startPage

/-- The journal choice of `createBibtexContent` (src/pid2bib.py lines
2637-2640): abbreviation preferred, full title as fallback. -/
def theJournal (reference : Reference) : String :=
  if reference.journalAb != "" then reference.journalAb else reference.journal

/-- The `notes` buffer of `createBibtexContent` (src/pid2bib.py lines
2642-2650). -/
def notesText (reference : Reference) (pmid : String) : String :=
  (if reference.doi != "" then
    "[DOI:\\href\x7bhttps://dx.doi.org/" ++ reference.doi ++ "\x7d\x7b" ++
      reference.doi ++ "\x7d] ["
  else "[") ++
  "PubMed:\\href\x7bhttps://www.ncbi.nlm.nih.gov/pubmed/" ++ pmid ++ "\x7d\x7b" ++
    pmid ++ "\x7d]"

/-- `appendFormattedField` of src/pid2bib.py (lines 186-198), rendered as the
string fragment the Python function appends to its buffer:
`   name = "value",` followed by a newline. -/
def appendFormattedField (name value : String) : String :=
  "   " ++ name ++ " = \"" ++ value ++ "\",\n"
/-- The uni2tex escape table of sanitizeBibtexField (src/pid2bib.py, the dict
literal spanning most of the function body): each Unicode code point that is a
key maps to its LaTeX replacement string.  All 2362 entries are reproduced. -/
def uni2tex : List (Char × String) := [
  ('\u0023', "\x7b\\#\x7d"),
  ('\u0024', "\x7b\\textdollar\x7d"),
  ('\u0025', "\x7b\\%\x7d"),
  ('\u0026', "\x7b\\&\x7d"),
  ('\u0027', "\x7b\\textquotesingle\x7d"),
  ('\u002A', "\x7b\\ast\x7d"),
  ('\u002B', "$\\mathplus$"),
  ('\u002D', "-"),
  ('\u003B', "$\\mathsemicolon$"),
  ('\u003C', "$\\less$"),
  ('\u003E', "$\\greater$"),
  ('\u005C', "\x7b\\textbackslash\x7d"),
  ('\u005E', "\x7b\\^\x7b\x7d\x7d"),
  ('\u005F', "\x7b\\_\x7d"),
  ('\u0060', "\x7b\\textasciigrave\x7d"),
  ('\u007B', "$\\lbrace$"),
  ('\u007C', "$\\vert$"),
  ('\u007D', "$\\rbrace$"),
  ('\u007E', "\x7b\\textasciitilde\x7d"),
  ('\u00A0', "~"),
  ('\u00A1', "\x7b\\textexclamdown\x7d"),
  ('\u00A2', "\x7b\\textcent\x7d"),
  ('\u00A3', "\x7b\\textsterling\x7d"),
  ('\u00A4', "\x7b\\textcurrency\x7d"),
  ('\u00A5', "\x7b\\textyen\x7d"),
  ('\u00A6', "\x7b\\textbrokenbar\x7d"),
  ('\u00A7', "\x7b\\textsection\x7d"),
  ('\u00A8', "\x7b\\textasciidieresis\x7d"),
  ('\u00A9', "\x7b\\textcopyright\x7d"),
  ('\u00AA', "\x7b\\textordfeminine\x7d"),
  ('\u00AB', "\x7b\\guillemotleft\x7d"),
  ('\u00AC', "$\\neg$"),
  ('\u00AD', "\x7b\\-\x7d"),
  ('\u00AE', "\x7b\\textregistered\x7d"),
  ('\u00AF', "\x7b\\textasciimacron\x7d"),
  ('\u00B0', "\x7b\\textdegree\x7d"),
  ('\u00B1', "$\\pm$"),
  ('\u00B2', "\x7b^2\x7d"),
  ('\u00B3', "\x7b^3\x7d"),
  ('\u00B4', "\x7b\\textasciiacute\x7d"),
  ('\u00B5', "$\\mathrm\x7b\\mu\x7d$"),
  ('\u00B6', "\x7b\\textparagraph\x7d"),
  ('\u00B7', "$\\cdotp$"),
  ('\u00B8', "\x7b\\c\x7b\x7d\x7d"),
  ('\u00B9', "\x7b^1\x7d"),
  ('\u00BA', "\x7b\\textordmasculine\x7d"),
  ('\u00BB', "\x7b\\guillemotright\x7d"),
  ('\u00BC', "\x7b\\textonequarter\x7d"),
  ('\u00BD', "\x7b\\textonehalf\x7d"),
  ('\u00BE', "\x7b\\textthreequarters\x7d"),
  ('\u00BF', "\x7b\\textquestiondown\x7d"),
  ('\u00C0', "\x7b\\\x60\x7bA\x7d\x7d"),
  ('\u00C1', "\x7b\\\x27\x7bA\x7d\x7d"),
  ('\u00C2', "\x7b\\^\x7bA\x7d\x7d"),
  ('\u00C3', "\x7b\\~\x7bA\x7d\x7d"),
  ('\u00C5', "\x7b\\AA\x7d"),
  ('\u00C6', "\x7b\\AE\x7d"),
  ('\u00C7', "\x7b\\c\x7bC\x7d\x7d"),
  ('\u00C8', "\x7b\\\x60\x7bE\x7d\x7d"),
  ('\u00C9', "\x7b\\\x27\x7bE\x7d\x7d"),
  ('\u00CA', "\x7b\\^\x7bE\x7d\x7d"),
  ('\u00CC', "\x7b\\\x60\x7bI\x7d\x7d"),
  ('\u00CD', "\x7b\\\x27\x7bI\x7d\x7d"),
  ('\u00CE', "\x7b\\^\x7bI\x7d\x7d"),
  ('\u00D0', "\x7b\\DH\x7d"),
  ('\u00D1', "\x7b\\~\x7bN\x7d\x7d"),
  ('\u00D2', "\x7b\\\x60\x7bO\x7d\x7d"),
  ('\u00D3', "\x7b\\\x27\x7bO\x7d\x7d"),
  ('\u00D4', "\x7b\\^\x7bO\x7d\x7d"),
  ('\u00D5', "\x7b\\~\x7bO\x7d\x7d"),
  ('\u00D7', "\x7b\\texttimes\x7d"),
  ('\u00D8', "\x7b\\O\x7d"),
  ('\u00D9', "\x7b\\\x60\x7bU\x7d\x7d"),
  ('\u00DA', "\x7b\\\x27\x7bU\x7d\x7d"),
  ('\u00DB', "\x7b\\^\x7bU\x7d\x7d"),
  ('\u00DD', "\x7b\\\x27\x7bY\x7d\x7d"),
  ('\u00DE', "\x7b\\TH\x7d"),
  ('\u00DF', "\x7b\\ss\x7d"),
  ('\u00E0', "\x7b\\\x60\x7ba\x7d\x7d"),
  ('\u00E1', "\x7b\\\x27\x7ba\x7d\x7d"),
  ('\u00E2', "\x7b\\^\x7ba\x7d\x7d"),
  ('\u00E3', "\x7b\\~\x7ba\x7d\x7d"),
  ('\u00E5', "\x7b\\aa\x7d"),
  ('\u00E6', "\x7b\\ae\x7d"),
  ('\u00E7', "\x7b\\c\x7bc\x7d\x7d"),
  ('\u00E8', "\x7b\\\x60\x7be\x7d\x7d"),
  ('\u00E9', "\x7b\\\x27\x7be\x7d\x7d"),
  ('\u00EA', "\x7b\\^\x7be\x7d\x7d"),
  ('\u00EC', "\x7b\\\x60\x7b\\i\x7d\x7d"),
  ('\u00ED', "\x7b\\\x27\x7b\\i\x7d\x7d"),
  ('\u00EE', "\x7b\\^\x7b\\i\x7d\x7d"),
  ('\u00F0', "\x7b\\dh\x7d"),
  ('\u00F1', "\x7b\\~\x7bn\x7d\x7d"),
  ('\u00F2', "\x7b\\\x60\x7bo\x7d\x7d"),
  ('\u00F3', "\x7b\\\x27\x7bo\x7d\x7d"),
  ('\u00F4', "\x7b\\^\x7bo\x7d\x7d"),
  ('\u00F5', "\x7b\\~\x7bo\x7d\x7d"),
  ('\u00F7', "$\\div$"),
  ('\u00F8', "\x7b\\o\x7d"),
  ('\u00F9', "\x7b\\\x60\x7bu\x7d\x7d"),
  ('\u00FA', "\x7b\\\x27\x7bu\x7d\x7d"),
  ('\u00FB', "\x7b\\^\x7bu\x7d\x7d"),
  ('\u00FD', "\x7b\\\x27\x7by\x7d\x7d"),
  ('\u00FE', "\x7b\\th\x7d"),
  ('\u0100', "\x7b\\=\x7bA\x7d\x7d"),
  ('\u0101', "\x7b\\=\x7ba\x7d\x7d"),
  ('\u0102', "\x7b\\u\x7bA\x7d\x7d"),
  ('\u0103', "\x7b\\u\x7ba\x7d\x7d"),
  ('\u0104', "\x7b\\k\x7bA\x7d\x7d"),
  ('\u0105', "\x7b\\k\x7ba\x7d\x7d"),
  ('\u0106', "\x7b\\\x27\x7bC\x7d\x7d"),
  ('\u0107', "\x7b\\\x27\x7bc\x7d\x7d"),
  ('\u0108', "\x7b\\^\x7bC\x7d\x7d"),
  ('\u0109', "\x7b\\^\x7bc\x7d\x7d"),
  ('\u010A', "\x7b\\.\x7bC\x7d\x7d"),
  ('\u010B', "\x7b\\.\x7bc\x7d\x7d"),
  ('\u010C', "\x7b\\v\x7bC\x7d\x7d"),
  ('\u010D', "\x7b\\v\x7bc\x7d\x7d"),
  ('\u010E', "\x7b\\v\x7bD\x7d\x7d"),
  ('\u010F', "\x7b\\v\x7bd\x7d\x7d"),
  ('\u0110', "\x7b\\DJ\x7d"),
  ('\u0111', "\x7b\\dj\x7d"),
  ('\u0112', "\x7b\\=\x7bE\x7d\x7d"),
  ('\u0113', "\x7b\\=\x7be\x7d\x7d"),
  ('\u0114', "\x7b\\u\x7bE\x7d\x7d"),
  ('\u0115', "\x7b\\u\x7be\x7d\x7d"),
  ('\u0116', "\x7b\\.\x7bE\x7d\x7d"),
  ('\u0117', "\x7b\\.\x7be\x7d\x7d"),
  ('\u0118', "\x7b\\k\x7bE\x7d\x7d"),
  ('\u0119', "\x7b\\k\x7be\x7d\x7d"),
  ('\u011A', "\x7b\\v\x7bE\x7d\x7d"),
  ('\u011B', "\x7b\\v\x7be\x7d\x7d"),
  ('\u011C', "\x7b\\^\x7bG\x7d\x7d"),
  ('\u011D', "\x7b\\^\x7bg\x7d\x7d"),
  ('\u011E', "\x7b\\u\x7bG\x7d\x7d"),
  ('\u011F', "\x7b\\u\x7bg\x7d\x7d"),
  ('\u0120', "\x7b\\.\x7bG\x7d\x7d"),
  ('\u0121', "\x7b\\.\x7bg\x7d\x7d"),
  ('\u0122', "\x7b\\c\x7bG\x7d\x7d"),
  ('\u0123', "\x7b\\c\x7bg\x7d\x7d"),
  ('\u0124', "\x7b\\^\x7bH\x7d\x7d"),
  ('\u0125', "\x7b\\^\x7bh\x7d\x7d"),
  ('\u0126', "\x7b\\fontencoding\x7bLELA\x7d\\selectfont\\char40\x7d"),
  ('\u0127', "\x7b\\Elzxh\x7d"),
  ('\u0128', "\x7b\\~\x7bI\x7d\x7d"),
  ('\u0129', "\x7b\\~\x7b\\i\x7d\x7d"),
  ('\u012A', "\x7b\\=\x7bI\x7d\x7d"),
  ('\u012B', "\x7b\\=\x7b\\i\x7d\x7d"),
  ('\u012C', "\x7b\\u\x7bI\x7d\x7d"),
  ('\u012D', "\x7b\\u\x7b\\i\x7d\x7d"),
  ('\u012E', "\x7b\\k\x7bI\x7d\x7d"),
  ('\u012F', "\x7b\\k\x7bi\x7d\x7d"),
  ('\u0130', "\x7b\\.\x7bI\x7d\x7d"),
  ('\u0131', "\x7b\\i\x7d"),
  ('\u0132', "IJ"),
  ('\u0133', "ij"),
  ('\u0134', "\x7b\\^\x7bJ\x7d\x7d"),
  ('\u0135', "\x7b\\^\x7b\\j\x7d\x7d"),
  ('\u0136', "\x7b\\c\x7bK\x7d\x7d"),
  ('\u0137', "\x7b\\c\x7bk\x7d\x7d"),
  ('\u0138', "\x7b\\fontencoding\x7bLELA\x7d\\selectfont\\char91\x7d"),
  ('\u0139', "\x7b\\\x27\x7bL\x7d\x7d"),
  ('\u013A', "\x7b\\\x27\x7bl\x7d\x7d"),
  ('\u013B', "\x7b\\c\x7bL\x7d\x7d"),
  ('\u013C', "\x7b\\c\x7bl\x7d\x7d"),
  ('\u013D', "\x7b\\v\x7bL\x7d\x7d"),
  ('\u013E', "\x7b\\v\x7bl\x7d\x7d"),
  ('\u013F', "\x7b\\fontencoding\x7bLELA\x7d\\selectfont\\char201\x7d"),
  ('\u0140', "\x7b\\fontencoding\x7bLELA\x7d\\selectfont\\char202\x7d"),
  ('\u0141', "\x7b\\L\x7d"),
  ('\u0142', "\x7b\\l\x7d"),
  ('\u0143', "\x7b\\\x27\x7bN\x7d\x7d"),
  ('\u0144', "\x7b\\\x27\x7bn\x7d\x7d"),
  ('\u0145', "\x7b\\c\x7bN\x7d\x7d"),
  ('\u0146', "\x7b\\c\x7bn\x7d\x7d"),
  ('\u0147', "\x7b\\v\x7bN\x7d\x7d"),
  ('\u0148', "\x7b\\v\x7bn\x7d\x7d"),
  ('\u0149', "\x27n"),
  ('\u014A', "\x7b\\NG\x7d"),
  ('\u014B', "\x7b\\ng\x7d"),
  ('\u014C', "\x7b\\=\x7bO\x7d\x7d"),
  ('\u014D', "\x7b\\=\x7bo\x7d\x7d"),
  ('\u014E', "\x7b\\u\x7bO\x7d\x7d"),
  ('\u014F', "\x7b\\u\x7bo\x7d\x7d"),
  ('\u0150', "\x7b\\H\x7bO\x7d\x7d"),
  ('\u0151', "\x7b\\H\x7bo\x7d\x7d"),
  ('\u0152', "\x7b\\OE\x7d"),
  ('\u0153', "\x7b\\oe\x7d"),
  ('\u0154', "\x7b\\\x27\x7bR\x7d\x7d"),
  ('\u0155', "\x7b\\\x27\x7br\x7d\x7d"),
  ('\u0156', "\x7b\\c\x7bR\x7d\x7d"),
  ('\u0157', "\x7b\\c\x7br\x7d\x7d"),
  ('\u0158', "\x7b\\v\x7bR\x7d\x7d"),
  ('\u0159', "\x7b\\v\x7br\x7d\x7d"),
  ('\u015A', "\x7b\\\x27\x7bS\x7d\x7d"),
  ('\u015B', "\x7b\\\x27\x7bs\x7d\x7d"),
  ('\u015C', "\x7b\\^\x7bS\x7d\x7d"),
  ('\u015D', "\x7b\\^\x7bs\x7d\x7d"),
  ('\u015E', "\x7b\\c\x7bS\x7d\x7d"),
  ('\u015F', "\x7b\\c\x7bs\x7d\x7d"),
  ('\u0160', "\x7b\\v\x7bS\x7d\x7d"),
  ('\u0161', "\x7b\\v\x7bs\x7d\x7d"),
  ('\u0162', "\x7b\\c\x7bT\x7d\x7d"),
  ('\u0163', "\x7b\\c\x7bt\x7d\x7d"),
  ('\u0164', "\x7b\\v\x7bT\x7d\x7d"),
  ('\u0165', "\x7b\\v\x7bt\x7d\x7d"),
  ('\u0166', "\x7b\\fontencoding\x7bLELA\x7d\\selectfont\\char47\x7d"),
  ('\u0167', "\x7b\\fontencoding\x7bLELA\x7d\\selectfont\\char63\x7d"),
  ('\u0168', "\x7b\\~\x7bU\x7d\x7d"),
  ('\u0169', "\x7b\\~\x7bu\x7d\x7d"),
  ('\u016A', "\x7b\\=\x7bU\x7d\x7d"),
  ('\u016B', "\x7b\\=\x7bu\x7d\x7d"),
  ('\u016C', "\x7b\\u\x7bU\x7d\x7d"),
  ('\u016D', "\x7b\\u\x7bu\x7d\x7d"),
  ('\u016E', "\x7b\\r\x7bU\x7d\x7d"),
  ('\u016F', "\x7b\\r\x7bu\x7d\x7d"),
  ('\u0170', "\x7b\\H\x7bU\x7d\x7d"),
  ('\u0171', "\x7b\\H\x7bu\x7d\x7d"),
  ('\u0172', "\x7b\\k\x7bU\x7d\x7d"),
  ('\u0173', "\x7b\\k\x7bu\x7d\x7d"),
  ('\u0174', "\x7b\\^\x7bW\x7d\x7d"),
  ('\u0175', "\x7b\\^\x7bw\x7d\x7d"),
  ('\u0176', "\x7b\\^\x7bY\x7d\x7d"),
  ('\u0177', "\x7b\\^\x7by\x7d\x7d"),
  ('\u0179', "\x7b\\\x27\x7bZ\x7d\x7d"),
  ('\u017A', "\x7b\\\x27\x7bz\x7d\x7d"),
  ('\u017B', "\x7b\\.\x7bZ\x7d\x7d"),
  ('\u017C', "\x7b\\.\x7bz\x7d\x7d"),
  ('\u017D', "\x7b\\v\x7bZ\x7d\x7d"),
  ('\u017E', "\x7b\\v\x7bz\x7d\x7d"),
  ('\u0192', "f"),
  ('\u0195', "\x7b\\texthvlig\x7d"),
  ('\u019E', "\x7b\\textnrleg\x7d"),
  ('\u01AA', "\x7b\\eth\x7d"),
  ('\u01BA', "\x7b\\fontencoding\x7bLELA\x7d\\selectfont\\char195\x7d"),
  ('\u01C2', "\x7b\\textdoublepipe\x7d"),
  ('\u01F5', "\x7b\\\x27\x7bg\x7d\x7d"),
  ('\u0250', "\x7b\\Elztrna\x7d"),
  ('\u0252', "\x7b\\Elztrnsa\x7d"),
  ('\u0254', "\x7b\\Elzopeno\x7d"),
  ('\u0256', "\x7b\\Elzrtld\x7d"),
  ('\u0258', "\x7b\\fontencoding\x7bLEIP\x7d\\selectfont\\char61\x7d"),
  ('\u0259', "\x7b\\Elzschwa\x7d"),
  ('\u025B', "\x7b\\varepsilon\x7d"),
  ('\u0261', "g"),
  ('\u0263', "\x7b\\Elzpgamma\x7d"),
  ('\u0264', "\x7b\\Elzpbgam\x7d"),
  ('\u0265', "\x7b\\Elztrnh\x7d"),
  ('\u026C', "\x7b\\Elzbtdl\x7d"),
  ('\u026D', "\x7b\\Elzrtll\x7d"),
  ('\u026F', "\x7b\\Elztrnm\x7d"),
  ('\u0270', "\x7b\\Elztrnmlr\x7d"),
  ('\u0271', "\x7b\\Elzltlmr\x7d"),
  ('\u0272', "\x7b\\Elzltln\x7d"),
  ('\u0273', "\x7b\\Elzrtln\x7d"),
  ('\u0277', "\x7b\\Elzclomeg\x7d"),
  ('\u0278', "\x7b\\textphi\x7d"),
  ('\u0279', "\x7b\\Elztrnr\x7d"),
  ('\u027A', "\x7b\\Elztrnrl\x7d"),
  ('\u027B', "\x7b\\Elzrttrnr\x7d"),
  ('\u027C', "\x7b\\Elzrl\x7d"),
  ('\u027D', "\x7b\\Elzrtlr\x7d"),
  ('\u027E', "\x7b\\Elzfhr\x7d"),
  ('\u027F', "\x7b\\fontencoding\x7bLEIP\x7d\\selectfont\\char202\x7d"),
  ('\u0282', "\x7b\\Elzrtls\x7d"),
  ('\u0283', "\x7b\\Elzesh\x7d"),
  ('\u0287', "\x7b\\Elztrnt\x7d"),
  ('\u0288', "\x7b\\Elzrtlt\x7d"),
  ('\u028A', "\x7b\\Elzpupsil\x7d"),
  ('\u028B', "\x7b\\Elzpscrv\x7d"),
  ('\u028C', "\x7b\\Elzinvv\x7d"),
  ('\u028D', "\x7b\\Elzinvw\x7d"),
  ('\u028E', "\x7b\\Elztrny\x7d"),
  ('\u0290', "\x7b\\Elzrtlz\x7d"),
  ('\u0292', "\x7b\\Elzyogh\x7d"),
  ('\u0294', "\x7b\\Elzglst\x7d"),
  ('\u0295', "\x7b\\Elzreglst\x7d"),
  ('\u0296', "\x7b\\Elzinglst\x7d"),
  ('\u029E', "\x7b\\textturnk\x7d"),
  ('\u02A4', "\x7b\\Elzdyogh\x7d"),
  ('\u02A7', "\x7b\\Elztesh\x7d"),
  ('\u02BC', "\x27"),
  ('\u02C7', "\x7b\\textasciicaron\x7d"),
  ('\u02C8', "\x7b\\Elzverts\x7d"),
  ('\u02CC', "\x7b\\Elzverti\x7d"),
  ('\u02D0', "\x7b\\Elzlmrk\x7d"),
  ('\u02D1', "\x7b\\Elzhlmrk\x7d"),
  ('\u02D2', "\x7b\\Elzsbrhr\x7d"),
  ('\u02D3', "\x7b\\Elzsblhr\x7d"),
  ('\u02D4', "\x7b\\Elzrais\x7d"),
  ('\u02D5', "\x7b\\Elzlow\x7d"),
  ('\u02D8', "\x7b\\textasciibreve\x7d"),
  ('\u02D9', "\x7b\\textperiodcentered\x7d"),
  ('\u02DA', "\x7b\\r\x7b\x7d\x7d"),
  ('\u02DB', "\x7b\\k\x7b\x7d\x7d"),
  ('\u02DC', "\x7b\\texttildelow\x7d"),
  ('\u02DD', "\x7b\\H\x7b\x7d\x7d"),
  ('\u02E5', "\x7b\\tone\x7b55\x7d\x7d"),
  ('\u02E6', "\x7b\\tone\x7b44\x7d\x7d"),
  ('\u02E7', "\x7b\\tone\x7b33\x7d\x7d"),
  ('\u02E8', "\x7b\\tone\x7b22\x7d\x7d"),
  ('\u02E9', "\x7b\\tone\x7b11\x7d\x7d"),
  ('\u0300', "\x7b\\\x60\x7d"),
  ('\u0301', "\x7b\\\x27\x7d"),
  ('\u0302', "\x7b\\^\x7d"),
  ('\u0303', "\x7b\\~\x7d"),
  ('\u0304', "\x7b\\=\x7d"),
  ('\u0306', "\x7b\\u\x7d"),
  ('\u0307', "\x7b\\.\x7d"),
  ('\u030A', "\x7b\\r\x7d"),
  ('\u030B', "\x7b\\H\x7d"),
  ('\u030C', "\x7b\\v\x7d"),
  ('\u030F', "\x7b\\cyrchar\\C\x7d"),
  ('\u0311', "\x7b\\fontencoding\x7bLECO\x7d\\selectfont\\char177\x7d"),
  ('\u0318', "\x7b\\fontencoding\x7bLECO\x7d\\selectfont\\char184\x7d"),
  ('\u0319', "\x7b\\fontencoding\x7bLECO\x7d\\selectfont\\char185\x7d"),
  ('\u0321', "\x7b\\Elzpalh\x7d"),
  ('\u0322', "\x7b\\Elzrh\x7d"),
  ('\u0327', "\x7b\\c\x7d"),
  ('\u0328', "\x7b\\k\x7d"),
  ('\u032A', "\x7b\\Elzsbbrg\x7d"),
  ('\u032B', "\x7b\\fontencoding\x7bLECO\x7d\\selectfont\\char203\x7d"),
  ('\u032F', "\x7b\\fontencoding\x7bLECO\x7d\\selectfont\\char207\x7d"),
  ('\u0335', "\x7b\\Elzxl\x7d"),
  ('\u0336', "\x7b\\Elzbar\x7d"),
  ('\u0337', "\x7b\\fontencoding\x7bLECO\x7d\\selectfont\\char215\x7d"),
  ('\u0338', "\x7b\\fontencoding\x7bLECO\x7d\\selectfont\\char216\x7d"),
  ('\u033A', "\x7b\\fontencoding\x7bLECO\x7d\\selectfont\\char218\x7d"),
  ('\u033B', "\x7b\\fontencoding\x7bLECO\x7d\\selectfont\\char219\x7d"),
  ('\u033C', "\x7b\\fontencoding\x7bLECO\x7d\\selectfont\\char220\x7d"),
  ('\u033D', "\x7b\\fontencoding\x7bLECO\x7d\\selectfont\\char221\x7d"),
  ('\u0361', "\x7b\\fontencoding\x7bLECO\x7d\\selectfont\\char225\x7d"),
  ('\u0386', "\x7b\\\x27\x7bA\x7d\x7d"),
  ('\u0388', "\x7b\\\x27\x7bE\x7d\x7d"),
  ('\u0389', "\x7b\\\x27\x7bH\x7d\x7d"),
  ('\u038A', "\x7b\\\x27\x7b\x7d\x7bI\x7d\x7d"),
  ('\u038C', "\x7b\\\x27\x7b\x7dO\x7d"),
  ('\u038E', "$\\mathrm\x7b\x27Y\x7d$"),
  ('\u038F', "$\\mathrm\x7b\"\\Omega\x7d$"),
  ('\u0390', "\x7b\\acute\x7b\\ddot\x7b\\iota\x7d\x7d\x7d"),
  ('\u0391', "$\\upAlpha$"),
  ('\u0392', "$\\upBeta$"),
  ('\u0393', "$\\upGamma$"),
  ('\u0394', "$\\upDelta$"),
  ('\u0395', "$\\upEpsilon$"),
  ('\u0396', "$\\upZeta$"),
  ('\u0397', "$\\upEta$"),
  ('\u0398', "$\\upTheta$"),
  ('\u0399', "$\\upIota$"),
  ('\u039A', "$\\upKappa$"),
  ('\u039B', "$\\upLambda$"),
  ('\u039C', "$\\upMu$"),
  ('\u039D', "$\\upNu$"),
  ('\u039E', "$\\upXi$"),
  ('\u039F', "$\\upOmicron$"),
  ('\u03A0', "$\\upPi$"),
  ('\u03A1', "$\\upRho$"),
  ('\u03A3', "$\\upSigma$"),
  ('\u03A4', "$\\upTau$"),
  ('\u03A5', "$\\upUpsilon$"),
  ('\u03A6', "$\\upPhi$"),
  ('\u03A7', "$\\upChi$"),
  ('\u03A8', "$\\upPsi$"),
  ('\u03A9', "$\\upOmega$"),
  ('\u03AA', "$\\mathrm\x7b\\ddot\x7bI\x7d\x7d$"),
  ('\u03AB', "$\\mathrm\x7b\\ddot\x7bY\x7d\x7d$"),
  ('\u03AC', "\x7b\\\x27\x7b$\\alpha$\x7d\x7d"),
  ('\u03AD', "\x7b\\acute\x7b\\epsilon\x7d\x7d"),
  ('\u03AE', "\x7b\\acute\x7b\\eta\x7d\x7d"),
  ('\u03AF', "\x7b\\acute\x7b\\iota\x7d\x7d"),
  ('\u03B0', "\x7b\\acute\x7b\\ddot\x7b\\upsilon\x7d\x7d\x7d"),
  ('\u03B1', "$\\upalpha$"),
  ('\u03B2', "$\\upbeta$"),
  ('\u03B3', "$\\upgamma$"),
  ('\u03B4', "$\\updelta$"),
  ('\u03B5', "$\\upepsilon$"),
  ('\u03B6', "$\\upzeta$"),
  ('\u03B7', "$\\upeta$"),
  ('\u03B8', "\x7b\\texttheta\x7d"),
  ('\u03B9', "$\\upiota$"),
  ('\u03BA', "$\\upkappa$"),
  ('\u03BB', "$\\uplambda$"),
  ('\u03BC', "$\\upmu$"),
  ('\u03BD', "$\\upnu$"),
  ('\u03BE', "$\\upxi$"),
  ('\u03BF', "$\\upomicron$"),
  ('\u03C0', "$\\uppi$"),
  ('\u03C1', "$\\uprho$"),
  ('\u03C2', "$\\upvarsigma$"),
  ('\u03C3', "$\\upsigma$"),
  ('\u03C4', "$\\uptau$"),
  ('\u03C5', "$\\upupsilon$"),
  ('\u03C6', "$\\upvarphi$"),
  ('\u03C7', "$\\upchi$"),
  ('\u03C8', "$\\uppsi$"),
  ('\u03C9', "$\\upomega$"),
  ('\u03CA', "\x7b\\ddot\x7b\\iota\x7d\x7d"),
  ('\u03CB', "\x7b\\ddot\x7b\\upsilon\x7d\x7d"),
  ('\u03CC', "\x7b\\\x27\x7bo\x7d\x7d"),
  ('\u03CD', "\x7b\\acute\x7b\\upsilon\x7d\x7d"),
  ('\u03CE', "\x7b\\acute\x7b\\omega\x7d\x7d"),
  ('\u03D0', "\x7b\\Pisymbol\x7bppi022\x7d\x7b87\x7d\x7d"),
  ('\u03D1', "\x7b\\textvartheta\x7d"),
  ('\u03D2', "\x7b\\Upsilon\x7d"),
  ('\u03D5', "$\\upphi$"),
  ('\u03D6', "$\\upvarpi$"),
  ('\u03DA', "$\\upStigma$"),
  ('\u03DC', "$\\upDigamma$"),
  ('\u03DD', "$\\updigamma$"),
  ('\u03DE', "$\\upKoppa$"),
  ('\u03E0', "$\\upSampi$"),
  ('\u03F0', "$\\upvarkappa$"),
  ('\u03F1', "$\\upvarrho$"),
  ('\u03F4', "\x7b\\textTheta\x7d"),
  ('\u03F6', "$\\upbackepsilon$"),
  ('\u0401', "\x7b\\cyrchar\\CYRYO\x7d"),
  ('\u0402', "\x7b\\cyrchar\\CYRDJE\x7d"),
  ('\u0403', "\x7b\\cyrchar\x7b\\\"\\CYRG\x7d\x7d"),
  ('\u0404', "\x7b\\cyrchar\\CYRIE\x7d"),
  ('\u0405', "\x7b\\cyrchar\\CYRDZE\x7d"),
  ('\u0406', "\x7b\\cyrchar\\CYRII\x7d"),
  ('\u0407', "\x7b\\cyrchar\\CYRYI\x7d"),
  ('\u0408', "\x7b\\cyrchar\\CYRJE\x7d"),
  ('\u0409', "\x7b\\cyrchar\\CYRLJE\x7d"),
  ('\u040A', "\x7b\\cyrchar\\CYRNJE\x7d"),
  ('\u040B', "\x7b\\cyrchar\\CYRTSHE\x7d"),
  ('\u040C', "\x7b\\cyrchar\x7b\\\"\\CYRK\x7d\x7d"),
  ('\u040E', "\x7b\\cyrchar\\CYRUSHRT\x7d"),
  ('\u040F', "\x7b\\cyrchar\\CYRDZHE\x7d"),
  ('\u0410', "\x7b\\cyrchar\\CYRA\x7d"),
  ('\u0411', "\x7b\\cyrchar\\CYRB\x7d"),
  ('\u0412', "\x7b\\cyrchar\\CYRV\x7d"),
  ('\u0413', "\x7b\\cyrchar\\CYRG\x7d"),
  ('\u0414', "\x7b\\cyrchar\\CYRD\x7d"),
  ('\u0415', "\x7b\\cyrchar\\CYRE\x7d"),
  ('\u0416', "\x7b\\cyrchar\\CYRZH\x7d"),
  ('\u0417', "\x7b\\cyrchar\\CYRZ\x7d"),
  ('\u0418', "\x7b\\cyrchar\\CYRI\x7d"),
  ('\u0419', "\x7b\\cyrchar\\CYRISHRT\x7d"),
  ('\u041A', "\x7b\\cyrchar\\CYRK\x7d"),
  ('\u041B', "\x7b\\cyrchar\\CYRL\x7d"),
  ('\u041C', "\x7b\\cyrchar\\CYRM\x7d"),
  ('\u041D', "\x7b\\cyrchar\\CYRN\x7d"),
  ('\u041E', "\x7b\\cyrchar\\CYRO\x7d"),
  ('\u041F', "\x7b\\cyrchar\\CYRP\x7d"),
  ('\u0420', "\x7b\\cyrchar\\CYRR\x7d"),
  ('\u0421', "\x7b\\cyrchar\\CYRS\x7d"),
  ('\u0422', "\x7b\\cyrchar\\CYRT\x7d"),
  ('\u0423', "\x7b\\cyrchar\\CYRU\x7d"),
  ('\u0424', "\x7b\\cyrchar\\CYRF\x7d"),
  ('\u0425', "\x7b\\cyrchar\\CYRH\x7d"),
  ('\u0426', "\x7b\\cyrchar\\CYRC\x7d"),
  ('\u0427', "\x7b\\cyrchar\\CYRCH\x7d"),
  ('\u0428', "\x7b\\cyrchar\\CYRSH\x7d"),
  ('\u0429', "\x7b\\cyrchar\\CYRSHCH\x7d"),
  ('\u042A', "\x7b\\cyrchar\\CYRHRDSN\x7d"),
  ('\u042B', "\x7b\\cyrchar\\CYRERY\x7d"),
  ('\u042C', "\x7b\\cyrchar\\CYRSFTSN\x7d"),
  ('\u042D', "\x7b\\cyrchar\\CYREREV\x7d"),
  ('\u042E', "\x7b\\cyrchar\\CYRYU\x7d"),
  ('\u042F', "\x7b\\cyrchar\\CYRYA\x7d"),
  ('\u0430', "\x7b\\cyrchar\\cyra\x7d"),
  ('\u0431', "\x7b\\cyrchar\\cyrb\x7d"),
  ('\u0432', "\x7b\\cyrchar\\cyrv\x7d"),
  ('\u0433', "\x7b\\cyrchar\\cyrg\x7d"),
  ('\u0434', "\x7b\\cyrchar\\cyrd\x7d"),
  ('\u0435', "\x7b\\cyrchar\\cyre\x7d"),
  ('\u0436', "\x7b\\cyrchar\\cyrzh\x7d"),
  ('\u0437', "\x7b\\cyrchar\\cyrz\x7d"),
  ('\u0438', "\x7b\\cyrchar\\cyri\x7d"),
  ('\u0439', "\x7b\\cyrchar\\cyrishrt\x7d"),
  ('\u043A', "\x7b\\cyrchar\\cyrk\x7d"),
  ('\u043B', "\x7b\\cyrchar\\cyrl\x7d"),
  ('\u043C', "\x7b\\cyrchar\\cyrm\x7d"),
  ('\u043D', "\x7b\\cyrchar\\cyrn\x7d"),
  ('\u043E', "\x7b\\cyrchar\\cyro\x7d"),
  ('\u043F', "\x7b\\cyrchar\\cyrp\x7d"),
  ('\u0440', "\x7b\\cyrchar\\cyrr\x7d"),
  ('\u0441', "\x7b\\cyrchar\\cyrs\x7d"),
  ('\u0442', "\x7b\\cyrchar\\cyrt\x7d"),
  ('\u0443', "\x7b\\cyrchar\\cyru\x7d"),
  ('\u0444', "\x7b\\cyrchar\\cyrf\x7d"),
  ('\u0445', "\x7b\\cyrchar\\cyrh\x7d"),
  ('\u0446', "\x7b\\cyrchar\\cyrc\x7d"),
  ('\u0447', "\x7b\\cyrchar\\cyrch\x7d"),
  ('\u0448', "\x7b\\cyrchar\\cyrsh\x7d"),
  ('\u0449', "\x7b\\cyrchar\\cyrshch\x7d"),
  ('\u044A', "\x7b\\cyrchar\\cyrhrdsn\x7d"),
  ('\u044B', "\x7b\\cyrchar\\cyrery\x7d"),
  ('\u044C', "\x7b\\cyrchar\\cyrsftsn\x7d"),
  ('\u044D', "\x7b\\cyrchar\\cyrerev\x7d"),
  ('\u044E', "\x7b\\cyrchar\\cyryu\x7d"),
  ('\u044F', "\x7b\\cyrchar\\cyrya\x7d"),
  ('\u0451', "\x7b\\cyrchar\\cyryo\x7d"),
  ('\u0452', "\x7b\\cyrchar\\cyrdje\x7d"),
  ('\u0453', "\x7b\\cyrchar\x7b\\\"\\cyrg\x7d\x7d"),
  ('\u0454', "\x7b\\cyrchar\\cyrie\x7d"),
  ('\u0455', "\x7b\\cyrchar\\cyrdze\x7d"),
  ('\u0456', "\x7b\\cyrchar\\cyrii\x7d"),
  ('\u0457', "\x7b\\cyrchar\\cyryi\x7d"),
  ('\u0458', "\x7b\\cyrchar\\cyrje\x7d"),
  ('\u0459', "\x7b\\cyrchar\\cyrlje\x7d"),
  ('\u045A', "\x7b\\cyrchar\\cyrnje\x7d"),
  ('\u045B', "\x7b\\cyrchar\\cyrtshe\x7d"),
  ('\u045C', "\x7b\\cyrchar\x7b\\\"\\cyrk\x7d\x7d"),
  ('\u045E', "\x7b\\cyrchar\\cyrushrt\x7d"),
  ('\u045F', "\x7b\\cyrchar\\cyrdzhe\x7d"),
  ('\u0460', "\x7b\\cyrchar\\CYROMEGA\x7d"),
  ('\u0461', "\x7b\\cyrchar\\cyromega\x7d"),
  ('\u0462', "\x7b\\cyrchar\\CYRYAT\x7d"),
  ('\u0464', "\x7b\\cyrchar\\CYRIOTE\x7d"),
  ('\u0465', "\x7b\\cyrchar\\cyriote\x7d"),
  ('\u0466', "\x7b\\cyrchar\\CYRLYUS\x7d"),
  ('\u0467', "\x7b\\cyrchar\\cyrlyus\x7d"),
  ('\u0468', "\x7b\\cyrchar\\CYRIOTLYUS\x7d"),
  ('\u0469', "\x7b\\cyrchar\\cyriotlyus\x7d"),
  ('\u046A', "\x7b\\cyrchar\\CYRBYUS\x7d"),
  ('\u046C', "\x7b\\cyrchar\\CYRIOTBYUS\x7d"),
  ('\u046D', "\x7b\\cyrchar\\cyriotbyus\x7d"),
  ('\u046E', "\x7b\\cyrchar\\CYRKSI\x7d"),
  ('\u046F', "\x7b\\cyrchar\\cyrksi\x7d"),
  ('\u0470', "\x7b\\cyrchar\\CYRPSI\x7d"),
  ('\u0471', "\x7b\\cyrchar\\cyrpsi\x7d"),
  ('\u0472', "\x7b\\cyrchar\\CYRFITA\x7d"),
  ('\u0474', "\x7b\\cyrchar\\CYRIZH\x7d"),
  ('\u0478', "\x7b\\cyrchar\\CYRUK\x7d"),
  ('\u0479', "\x7b\\cyrchar\\cyruk\x7d"),
  ('\u047A', "\x7b\\cyrchar\\CYROMEGARND\x7d"),
  ('\u047B', "\x7b\\cyrchar\\cyromegarnd\x7d"),
  ('\u047C', "\x7b\\cyrchar\\CYROMEGATITLO\x7d"),
  ('\u047D', "\x7b\\cyrchar\\cyromegatitlo\x7d"),
  ('\u047E', "\x7b\\cyrchar\\CYROT\x7d"),
  ('\u047F', "\x7b\\cyrchar\\cyrot\x7d"),
  ('\u0480', "\x7b\\cyrchar\\CYRKOPPA\x7d"),
  ('\u0481', "\x7b\\cyrchar\\cyrkoppa\x7d"),
  ('\u0482', "\x7b\\cyrchar\\cyrthousands\x7d"),
  ('\u0488', "\x7b\\cyrchar\\cyrhundredthousands\x7d"),
  ('\u0489', "\x7b\\cyrchar\\cyrmillions\x7d"),
  ('\u048C', "\x7b\\cyrchar\\CYRSEMISFTSN\x7d"),
  ('\u048D', "\x7b\\cyrchar\\cyrsemisftsn\x7d"),
  ('\u048E', "\x7b\\cyrchar\\CYRRTICK\x7d"),
  ('\u048F', "\x7b\\cyrchar\\cyrrtick\x7d"),
  ('\u0490', "\x7b\\cyrchar\\CYRGUP\x7d"),
  ('\u0491', "\x7b\\cyrchar\\cyrgup\x7d"),
  ('\u0492', "\x7b\\cyrchar\\CYRGHCRS\x7d"),
  ('\u0493', "\x7b\\cyrchar\\cyrghcrs\x7d"),
  ('\u0494', "\x7b\\cyrchar\\CYRGHK\x7d"),
  ('\u0495', "\x7b\\cyrchar\\cyrghk\x7d"),
  ('\u0496', "\x7b\\cyrchar\\CYRZHDSC\x7d"),
  ('\u0497', "\x7b\\cyrchar\\cyrzhdsc\x7d"),
  ('\u0498', "\x7b\\cyrchar\\CYRZDSC\x7d"),
  ('\u0499', "\x7b\\cyrchar\\cyrzdsc\x7d"),
  ('\u049A', "\x7b\\cyrchar\\CYRKDSC\x7d"),
  ('\u049B', "\x7b\\cyrchar\\cyrkdsc\x7d"),
  ('\u049C', "\x7b\\cyrchar\\CYRKVCRS\x7d"),
  ('\u049D', "\x7b\\cyrchar\\cyrkvcrs\x7d"),
  ('\u049E', "\x7b\\cyrchar\\CYRKHCRS\x7d"),
  ('\u049F', "\x7b\\cyrchar\\cyrkhcrs\x7d"),
  ('\u04A0', "\x7b\\cyrchar\\CYRKBEAK\x7d"),
  ('\u04A1', "\x7b\\cyrchar\\cyrkbeak\x7d"),
  ('\u04A2', "\x7b\\cyrchar\\CYRNDSC\x7d"),
  ('\u04A3', "\x7b\\cyrchar\\cyrndsc\x7d"),
  ('\u04A4', "\x7b\\cyrchar\\CYRNG\x7d"),
  ('\u04A5', "\x7b\\cyrchar\\cyrng\x7d"),
  ('\u04A6', "\x7b\\cyrchar\\CYRPHK\x7d"),
  ('\u04A7', "\x7b\\cyrchar\\cyrphk\x7d"),
  ('\u04A8', "\x7b\\cyrchar\\CYRABHHA\x7d"),
  ('\u04A9', "\x7b\\cyrchar\\cyrabhha\x7d"),
  ('\u04AA', "\x7b\\cyrchar\\CYRSDSC\x7d"),
  ('\u04AB', "\x7b\\cyrchar\\cyrsdsc\x7d"),
  ('\u04AC', "\x7b\\cyrchar\\CYRTDSC\x7d"),
  ('\u04AD', "\x7b\\cyrchar\\cyrtdsc\x7d"),
  ('\u04AE', "\x7b\\cyrchar\\CYRY\x7d"),
  ('\u04AF', "\x7b\\cyrchar\\cyry\x7d"),
  ('\u04B0', "\x7b\\cyrchar\\CYRYHCRS\x7d"),
  ('\u04B1', "\x7b\\cyrchar\\cyryhcrs\x7d"),
  ('\u04B2', "\x7b\\cyrchar\\CYRHDSC\x7d"),
  ('\u04B3', "\x7b\\cyrchar\\cyrhdsc\x7d"),
  ('\u04B4', "\x7b\\cyrchar\\CYRTETSE\x7d"),
  ('\u04B5', "\x7b\\cyrchar\\cyrtetse\x7d"),
  ('\u04B6', "\x7b\\cyrchar\\CYRCHRDSC\x7d"),
  ('\u04B7', "\x7b\\cyrchar\\cyrchrdsc\x7d"),
  ('\u04B8', "\x7b\\cyrchar\\CYRCHVCRS\x7d"),
  ('\u04B9', "\x7b\\cyrchar\\cyrchvcrs\x7d"),
  ('\u04BA', "\x7b\\cyrchar\\CYRSHHA\x7d"),
  ('\u04BB', "\x7b\\cyrchar\\cyrshha\x7d"),
  ('\u04BC', "\x7b\\cyrchar\\CYRABHCH\x7d"),
  ('\u04BD', "\x7b\\cyrchar\\cyrabhch\x7d"),
  ('\u04BE', "\x7b\\cyrchar\\CYRABHCHDSC\x7d"),
  ('\u04BF', "\x7b\\cyrchar\\cyrabhchdsc\x7d"),
  ('\u04C0', "\x7b\\cyrchar\\CYRpalochka\x7d"),
  ('\u04C3', "\x7b\\cyrchar\\CYRKHK\x7d"),
  ('\u04C4', "\x7b\\cyrchar\\cyrkhk\x7d"),
  ('\u04C7', "\x7b\\cyrchar\\CYRNHK\x7d"),
  ('\u04C8', "\x7b\\cyrchar\\cyrnhk\x7d"),
  ('\u04CB', "\x7b\\cyrchar\\CYRCHLDSC\x7d"),
  ('\u04CC', "\x7b\\cyrchar\\cyrchldsc\x7d"),
  ('\u04D4', "\x7b\\cyrchar\\CYRAE\x7d"),
  ('\u04D5', "\x7b\\cyrchar\\cyrae\x7d"),
  ('\u04D8', "\x7b\\cyrchar\\CYRSCHWA\x7d"),
  ('\u04D9', "\x7b\\cyrchar\\cyrschwa\x7d"),
  ('\u04E0', "\x7b\\cyrchar\\CYRABHDZE\x7d"),
  ('\u04E1', "\x7b\\cyrchar\\cyrabhdze\x7d"),
  ('\u04E8', "\x7b\\cyrchar\\CYROTLD\x7d"),
  ('\u04E9', "\x7b\\cyrchar\\cyrotld\x7d"),
  ('\u2002', "\x7b\\hspace\x7b0.6em\x7d\x7d"),
  ('\u2003', "\x7b\\hspace\x7b1em\x7d\x7d"),
  ('\u2004', "\x7b\\hspace\x7b0.33em\x7d\x7d"),
  ('\u2005', "\x7b\\hspace\x7b0.25em\x7d\x7d"),
  ('\u2006', "\x7b\\hspace\x7b0.166em\x7d\x7d"),
  ('\u2007', "\x7b\\hphantom\x7b0\x7d\x7d"),
  ('\u2008', "\x7b\\hphantom\x7b,\x7d\x7d"),
  ('\u2009', "\x7b\\hspace\x7b0.167em\x7d\x7d"),
  ('\u200A', "\x7b\\mkern1mu\x7d"),
  ('\u2010', "-"),
  ('\u2013', "\x7b\\textendash\x7d"),
  ('\u2014', "\x7b\\textemdash\x7d"),
  ('\u2015', "\x7b\\rule\x7b1em\x7d\x7b1pt\x7d\x7d"),
  ('\u2016', "$\\Vert$"),
  ('\u2018', "\x60"),
  ('\u2019', "\x27"),
  ('\u201A', ","),
  ('\u201B', "\x7b\\Elzreapos\x7d"),
  ('\u201C', "\x7b\\textquotedblleft\x7d"),
  ('\u201D', "\x7b\\textquotedblright\x7d"),
  ('\u201E', ",,"),
  ('\u2020', "\x7b\\textdagger\x7d"),
  ('\u2021', "\x7b\\textdaggerdbl\x7d"),
  ('\u2022', "\x7b\\textbullet\x7d"),
  ('\u2024', "."),
  ('\u2025', ".."),
  ('\u2026', "\x7b\\ldots\x7d"),
  ('\u2030', "\x7b\\textperthousand\x7d"),
  ('\u2031', "\x7b\\textpertenthousand\x7d"),
  ('\u2032', "$\\prime$"),
  ('\u2033', "$\\dprime$"),
  ('\u2034', "$\\trprime$"),
  ('\u2035', "$\\backprime$"),
  ('\u2039', "\x7b\\guilsinglleft\x7d"),
  ('\u203A', "\x7b\\guilsinglright\x7d"),
  ('\u2057', "$\\qprime$"),
  ('\u205F', "\x7b\\mkern4mu\x7d"),
  ('\u2060', "\x7b\\nolinebreak\x7d"),
  ('\u20A7', "\x7b\\ensuremath\x7b\\Elzpes\x7d\x7d"),
  ('\u20AC', "\x7b\\mbox\x7b\\texteuro\x7d\x7d"),
  ('\u20DB', "$\\dddot$"),
  ('\u20DC', "$\\ddddot$"),
  ('\u2102', "$\\BbbC$"),
  ('\u210A', "$\\mathscr\x7bg\x7d$"),
  ('\u210B', "$\\mscrH$"),
  ('\u210C', "$\\mfrakH$"),
  ('\u210D', "$\\BbbH$"),
  ('\u210F', "$\\hslash$"),
  ('\u2110', "$\\mscrI$"),
  ('\u2111', "$\\Im$"),
  ('\u2112', "$\\mscrL$"),
  ('\u2113', "$\\ell$"),
  ('\u2115', "$\\BbbN$"),
  ('\u2116', "\x7b\\cyrchar\\textnumero\x7d"),
  ('\u2118', "$\\wp$"),
  ('\u2119', "$\\BbbP$"),
  ('\u211A', "$\\BbbQ$"),
  ('\u211B', "$\\mscrR$"),
  ('\u211C', "$\\Re$"),
  ('\u211D', "$\\BbbR$"),
  ('\u211E', "\x7b\\Elzxrat\x7d"),
  ('\u2122', "\x7b\\texttrademark\x7d"),
  ('\u2124', "$\\BbbZ$"),
  ('\u2126', "\x7b\\Omega\x7d"),
  ('\u2127', "$\\mho$"),
  ('\u2128', "$\\mfrakZ$"),
  ('\u2129', "$\\turnediota$"),
  ('\u212B', "\x7b\\AA\x7d"),
  ('\u212C', "$\\mscrB$"),
  ('\u212D', "$\\mfrakC$"),
  ('\u212F', "$\\mscre$"),
  ('\u2130', "$\\mscrE$"),
  ('\u2131', "$\\mscrF$"),
  ('\u2133', "$\\mscrM$"),
  ('\u2134', "$\\mscro$"),
  ('\u2135', "$\\aleph$"),
  ('\u2136', "$\\beth$"),
  ('\u2137', "$\\gimel$"),
  ('\u2138', "$\\daleth$"),
  ('\u2153', "\x7b\\textfrac\x7b1\x7d\x7b3\x7d\x7d"),
  ('\u2154', "\x7b\\textfrac\x7b2\x7d\x7b3\x7d\x7d"),
  ('\u2155', "\x7b\\textfrac\x7b1\x7d\x7b5\x7d\x7d"),
  ('\u2156', "\x7b\\textfrac\x7b2\x7d\x7b5\x7d\x7d"),
  ('\u2157', "\x7b\\textfrac\x7b3\x7d\x7b5\x7d\x7d"),
  ('\u2158', "\x7b\\textfrac\x7b4\x7d\x7b5\x7d\x7d"),
  ('\u2159', "\x7b\\textfrac\x7b1\x7d\x7b6\x7d\x7d"),
  ('\u215A', "\x7b\\textfrac\x7b5\x7d\x7b6\x7d\x7d"),
  ('\u215B', "\x7b\\textfrac\x7b1\x7d\x7b8\x7d\x7d"),
  ('\u215C', "\x7b\\textfrac\x7b3\x7d\x7b8\x7d\x7d"),
  ('\u215D', "\x7b\\textfrac\x7b5\x7d\x7b8\x7d\x7d"),
  ('\u215E', "\x7b\\textfrac\x7b7\x7d\x7b8\x7d\x7d"),
  ('\u2190', "$\\leftarrow$"),
  ('\u2191', "$\\uparrow$"),
  ('\u2192', "$\\rightarrow$"),
  ('\u2193', "$\\downarrow$"),
  ('\u2194', "$\\leftrightarrow$"),
  ('\u2195', "$\\updownarrow$"),
  ('\u2196', "$\\nwarrow$"),
  ('\u2197', "$\\nearrow$"),
  ('\u2198', "$\\searrow$"),
  ('\u2199', "$\\swarrow$"),
  ('\u219A', "$\\nleftarrow$"),
  ('\u219B', "$\\nrightarrow$"),
  ('\u219C', "$\\leftwavearrow$"),
  ('\u219D', "$\\rightwavearrow$"),
  ('\u219E', "$\\twoheadleftarrow$"),
  ('\u21A0', "$\\twoheadrightarrow$"),
  ('\u21A2', "$\\leftarrowtail$"),
  ('\u21A3', "$\\rightarrowtail$"),
  ('\u21A6', "$\\mapsto$"),
  ('\u21A9', "$\\hookleftarrow$"),
  ('\u21AA', "$\\hookrightarrow$"),
  ('\u21AB', "$\\looparrowleft$"),
  ('\u21AC', "$\\looparrowright$"),
  ('\u21AD', "$\\leftrightsquigarrow$"),
  ('\u21AE', "$\\nleftrightarrow$"),
  ('\u21B0', "$\\Lsh$"),
  ('\u21B1', "$\\Rsh$"),
  ('\u21B3', "$\\Rdsh$"),
  ('\u21B6', "$\\curvearrowleft$"),
  ('\u21B7', "$\\curvearrowright$"),
  ('\u21BA', "$\\acwopencirclearrow$"),
  ('\u21BB', "$\\cwopencirclearrow$"),
  ('\u21BC', "$\\leftharpoonup$"),
  ('\u21BD', "$\\leftharpoondown$"),
  ('\u21BE', "$\\upharpoonright$"),
  ('\u21BF', "$\\upharpoonleft$"),
  ('\u21C0', "$\\rightharpoonup$"),
  ('\u21C1', "$\\rightharpoondown$"),
  ('\u21C2', "$\\downharpoonright$"),
  ('\u21C3', "$\\downharpoonleft$"),
  ('\u21C4', "$\\rightleftarrows$"),
  ('\u21C5', "$\\updownarrows$"),
  ('\u21C6', "$\\leftrightarrows$"),
  ('\u21C7', "$\\leftleftarrows$"),
  ('\u21C8', "$\\upuparrows$"),
  ('\u21C9', "$\\rightrightarrows$"),
  ('\u21CA', "$\\downdownarrows$"),
  ('\u21CB', "$\\leftrightharpoons$"),
  ('\u21CC', "$\\rightleftharpoons$"),
  ('\u21CD', "$\\nLeftarrow$"),
  ('\u21CE', "$\\nLeftrightarrow$"),
  ('\u21CF', "$\\nRightarrow$"),
  ('\u21D0', "$\\Leftarrow$"),
  ('\u21D1', "$\\Uparrow$"),
  ('\u21D2', "$\\Rightarrow$"),
  ('\u21D3', "$\\Downarrow$"),
  ('\u21D4', "$\\Leftrightarrow$"),
  ('\u21D5', "$\\Updownarrow$"),
  ('\u21DA', "$\\Lleftarrow$"),
  ('\u21DB', "$\\Rrightarrow$"),
  ('\u21DD', "$\\rightsquigarrow$"),
  ('\u21F5', "$\\downuparrows$"),
  ('\u2200', "$\\forall$"),
  ('\u2201', "$\\complement$"),
  ('\u2202', "$\\partial$"),
  ('\u2203', "$\\exists$"),
  ('\u2204', "$\\nexists$"),
  ('\u2205', "$\\varnothing$"),
  ('\u2207', "$\\nabla$"),
  ('\u2208', "$\\in$"),
  ('\u2209', "$\\notin$"),
  ('\u220B', "$\\ni$"),
  ('\u220C', "$\\nni$"),
  ('\u220F', "$\\prod$"),
  ('\u2210', "$\\coprod$"),
  ('\u2211', "$\\sum$"),
  ('\u2212', "-"),
  ('\u2213', "$\\mp$"),
  ('\u2214', "$\\dotplus$"),
  ('\u2216', "$\\smallsetminus$"),
  ('\u2217', "$\\ast$"),
  ('\u2218', "$\\vysmwhtcircle$"),
  ('\u2219', "$\\vysmblkcircle$"),
  ('\u221A', "$\\sqrt$"),
  ('\u221D', "$\\propto$"),
  ('\u221E', "$\\infty$"),
  ('\u221F', "$\\rightangle$"),
  ('\u2220', "$\\angle$"),
  ('\u2221', "$\\measuredangle$"),
  ('\u2222', "$\\sphericalangle$"),
  ('\u2223', "$\\mid$"),
  ('\u2224', "$\\nmid$"),
  ('\u2225', "$\\parallel$"),
  ('\u2226', "$\\nparallel$"),
  ('\u2227', "$\\wedge$"),
  ('\u2228', "$\\vee$"),
  ('\u2229', "$\\cap$"),
  ('\u222A', "$\\cup$"),
  ('\u222B', "$\\int$"),
  ('\u222C', "$\\iint$"),
  ('\u222D', "$\\iiint$"),
  ('\u222E', "$\\oint$"),
  ('\u222F', "$\\oiint$"),
  ('\u2230', "$\\oiiint$"),
  ('\u2231', "$\\intclockwise$"),
  ('\u2232', "$\\varointclockwise$"),
  ('\u2233', "$\\ointctrclockwise$"),
  ('\u2234', "$\\therefore$"),
  ('\u2235', "$\\because$"),
  ('\u2237', "$\\Colon$"),
  ('\u2238', "$\\dotminus$"),
  ('\u223A', "$\\dotsminusdots$"),
  ('\u223B', "$\\kernelcontraction$"),
  ('\u223C', "$\\sim$"),
  ('\u223D', "$\\backsim$"),
  ('\u223E', "$\\invlazys$"),
  ('\u2240', "$\\wr$"),
  ('\u2241', "$\\nsim$"),
  ('\u2242', "$\\eqsim$"),
  ('\u2243', "$\\simeq$"),
  ('\u2244', "$\\nsime$"),
  ('\u2245', "$\\cong$"),
  ('\u2246', "$\\simneqq$"),
  ('\u2247', "$\\ncong$"),
  ('\u2248', "$\\approx$"),
  ('\u2249', "$\\napprox$"),
  ('\u224A', "$\\approxeq$"),
  ('\u224B', "$\\approxident$"),
  ('\u224C', "$\\backcong$"),
  ('\u224D', "$\\asymp$"),
  ('\u224E', "$\\Bumpeq$"),
  ('\u224F', "$\\bumpeq$"),
  ('\u2250', "$\\doteq$"),
  ('\u2251', "$\\Doteq$"),
  ('\u2252', "$\\fallingdotseq$"),
  ('\u2253', "$\\risingdotseq$"),
  ('\u2254', ":="),
  ('\u2255', "$\\eqcolon$"),
  ('\u2256', "$\\eqcirc$"),
  ('\u2257', "$\\circeq$"),
  ('\u2259', "$\\wedgeq$"),
  ('\u225A', "$\\veeeq$"),
  ('\u225B', "$\\stareq$"),
  ('\u225C', "$\\triangleq$"),
  ('\u225F', "$\\questeq$"),
  ('\u2260', "$\\ne$"),
  ('\u2261', "$\\equiv$"),
  ('\u2262', "$\\nequiv$"),
  ('\u2264', "$\\leq$"),
  ('\u2265', "$\\geq$"),
  ('\u2266', "$\\leqq$"),
  ('\u2267', "$\\geqq$"),
  ('\u2268', "$\\lneqq$"),
  ('\u2269', "$\\gneqq$"),
  ('\u226A', "$\\ll$"),
  ('\u226B', "$\\gg$"),
  ('\u226C', "$\\between$"),
  ('\u226D', "$\\nasymp$"),
  ('\u226E', "$\\nless$"),
  ('\u226F', "$\\ngtr$"),
  ('\u2270', "$\\nleq$"),
  ('\u2271', "$\\ngeq$"),
  ('\u2272', "$\\lesssim$"),
  ('\u2273', "$\\gtrsim$"),
  ('\u2274', "$\\nlesssim$"),
  ('\u2275', "$\\ngtrsim$"),
  ('\u2276', "$\\lessgtr$"),
  ('\u2277', "$\\gtrless$"),
  ('\u2278', "$\\nlessgtr$"),
  ('\u2279', "$\\ngtrless$"),
  ('\u227A', "$\\prec$"),
  ('\u227B', "$\\succ$"),
  ('\u227C', "$\\preccurlyeq$"),
  ('\u227D', "$\\succcurlyeq$"),
  ('\u227E', "$\\precsim$"),
  ('\u227F', "$\\succsim$"),
  ('\u2280', "$\\nprec$"),
  ('\u2281', "$\\nsucc$"),
  ('\u2282', "$\\subset$"),
  ('\u2283', "$\\supset$"),
  ('\u2284', "$\\nsubset$"),
  ('\u2285', "$\\nsupset$"),
  ('\u2286', "$\\subseteq$"),
  ('\u2287', "$\\supseteq$"),
  ('\u2288', "$\\nsubseteq$"),
  ('\u2289', "$\\nsupseteq$"),
  ('\u228A', "$\\subsetneq$"),
  ('\u228B', "$\\supsetneq$"),
  ('\u228E', "$\\uplus$"),
  ('\u228F', "$\\sqsubset$"),
  ('\u2290', "$\\sqsupset$"),
  ('\u2291', "$\\sqsubseteq$"),
  ('\u2292', "$\\sqsupseteq$"),
  ('\u2293', "$\\sqcap$"),
  ('\u2294', "$\\sqcup$"),
  ('\u2295', "$\\oplus$"),
  ('\u2296', "$\\ominus$"),
  ('\u2297', "$\\otimes$"),
  ('\u2298', "$\\oslash$"),
  ('\u2299', "$\\odot$"),
  ('\u229A', "$\\circledcirc$"),
  ('\u229B', "$\\circledast$"),
  ('\u229D', "$\\circleddash$"),
  ('\u229E', "$\\boxplus$"),
  ('\u229F', "$\\boxminus$"),
  ('\u22A0', "$\\boxtimes$"),
  ('\u22A1', "$\\boxdot$"),
  ('\u22A2', "$\\vdash$"),
  ('\u22A3', "$\\dashv$"),
  ('\u22A4', "$\\top$"),
  ('\u22A5', "$\\bot$"),
  ('\u22A7', "$\\models$"),
  ('\u22A8', "$\\vDash$"),
  ('\u22A9', "$\\Vdash$"),
  ('\u22AA', "$\\Vvdash$"),
  ('\u22AB', "$\\VDash$"),
  ('\u22AC', "$\\nvdash$"),
  ('\u22AD', "$\\nvDash$"),
  ('\u22AE', "$\\nVdash$"),
  ('\u22AF', "$\\nVDash$"),
  ('\u22B2', "$\\vartriangleleft$"),
  ('\u22B3', "$\\vartriangleright$"),
  ('\u22B4', "$\\trianglelefteq$"),
  ('\u22B5', "$\\trianglerighteq$"),
  ('\u22B6', "$\\origof$"),
  ('\u22B7', "$\\imageof$"),
  ('\u22B8', "$\\multimap$"),
  ('\u22B9', "$\\hermitmatrix$"),
  ('\u22BA', "$\\intercal$"),
  ('\u22BB', "$\\veebar$"),
  ('\u22BE', "$\\measuredrightangle$"),
  ('\u22C0', "$\\bigwedge$"),
  ('\u22C1', "$\\bigvee$"),
  ('\u22C2', "$\\bigcap$"),
  ('\u22C3', "$\\bigcup$"),
  ('\u22C4', "$\\smwhtdiamond$"),
  ('\u22C5', "$\\cdot$"),
  ('\u22C6', "$\\star$"),
  ('\u22C7', "$\\divideontimes$"),
  ('\u22C8', "$\\bowtie$"),
  ('\u22C9', "$\\ltimes$"),
  ('\u22CA', "$\\rtimes$"),
  ('\u22CB', "$\\leftthreetimes$"),
  ('\u22CC', "$\\rightthreetimes$"),
  ('\u22CD', "$\\backsimeq$"),
  ('\u22CE', "$\\curlyvee$"),
  ('\u22CF', "$\\curlywedge$"),
  ('\u22D0', "$\\Subset$"),
  ('\u22D1', "$\\Supset$"),
  ('\u22D2', "$\\Cap$"),
  ('\u22D3', "$\\Cup$"),
  ('\u22D4', "$\\pitchfork$"),
  ('\u22D6', "$\\lessdot$"),
  ('\u22D7', "$\\gtrdot$"),
  ('\u22D8', "$\\lll$"),
  ('\u22D9', "$\\ggg$"),
  ('\u22DA', "$\\lesseqgtr$"),
  ('\u22DB', "$\\gtreqless$"),
  ('\u22DE', "$\\curlyeqprec$"),
  ('\u22DF', "$\\curlyeqsucc$"),
  ('\u22E2', "$\\nsqsubseteq$"),
  ('\u22E3', "$\\nsqsupseteq$"),
  ('\u22E5', "$\\sqsupsetneq$"),
  ('\u22E6', "$\\lnsim$"),
  ('\u22E7', "$\\gnsim$"),
  ('\u22E8', "$\\precnsim$"),
  ('\u22E9', "$\\succnsim$"),
  ('\u22EA', "$\\nvartriangleleft$"),
  ('\u22EB', "$\\nvartriangleright$"),
  ('\u22EC', "$\\ntrianglelefteq$"),
  ('\u22ED', "$\\ntrianglerighteq$"),
  ('\u22EE', "$\\vdots$"),
  ('\u22EF', "$\\unicodecdots$"),
  ('\u22F0', "$\\adots$"),
  ('\u22F1', "$\\ddots$"),
  ('\u2305', "\x7b\\barwedge\x7d"),
  ('\u2306', "$\\vardoublebarwedge$"),
  ('\u2308', "$\\lceil$"),
  ('\u2309', "$\\rceil$"),
  ('\u230A', "$\\lfloor$"),
  ('\u230B', "$\\rfloor$"),
  ('\u2315', "\x7b\\recorder\x7d"),
  ('\u231C', "$\\ulcorner$"),
  ('\u231D', "$\\urcorner$"),
  ('\u231E', "$\\llcorner$"),
  ('\u231F', "$\\lrcorner$"),
  ('\u2322', "$\\frown$"),
  ('\u2323', "$\\smile$"),
  ('\u233D', "$\\obar$"),
  ('\u23A3', "$\\lbracklend$"),
  ('\u23B0', "$\\lmoustache$"),
  ('\u23B1', "$\\rmoustache$"),
  ('\u2423', "\x7b\\textvisiblespace\x7d"),
  ('\u2460', "\x7b\\ding\x7b172\x7d\x7d"),
  ('\u2461', "\x7b\\ding\x7b173\x7d\x7d"),
  ('\u2462', "\x7b\\ding\x7b174\x7d\x7d"),
  ('\u2463', "\x7b\\ding\x7b175\x7d\x7d"),
  ('\u2464', "\x7b\\ding\x7b176\x7d\x7d"),
  ('\u2465', "\x7b\\ding\x7b177\x7d\x7d"),
  ('\u2466', "\x7b\\ding\x7b178\x7d\x7d"),
  ('\u2467', "\x7b\\ding\x7b179\x7d\x7d"),
  ('\u2468', "\x7b\\ding\x7b180\x7d\x7d"),
  ('\u2469', "\x7b\\ding\x7b181\x7d\x7d"),
  ('\u24C8', "\x7b\\circledS\x7d"),
  ('\u2506', "$\\bdtriplevdash$"),
  ('\u2519', "\x7b\\Elzsqfnw\x7d"),
  ('\u2571', "\x7b\\diagup\x7d"),
  ('\u25A0', "\x7b\\ding\x7b110\x7d\x7d"),
  ('\u25A1', "$\\mdlgwhtsquare$"),
  ('\u25AA', "$\\smblksquare$"),
  ('\u25AD', "$\\hrectangle$"),
  ('\u25AF', "$\\vrectangle$"),
  ('\u25B1', "$\\parallelogram$"),
  ('\u25B2', "\x7b\\ding\x7b115\x7d\x7d"),
  ('\u25B3', "$\\bigtriangleup$"),
  ('\u25B4', "$\\blacktriangle$"),
  ('\u25B5', "$\\vartriangle$"),
  ('\u25B8', "$\\smallblacktriangleright$"),
  ('\u25B9', "$\\smalltriangleright$"),
  ('\u25BC', "\x7b\\ding\x7b116\x7d\x7d"),
  ('\u25BD', "$\\bigtriangledown$"),
  ('\u25BE', "$\\blacktriangledown$"),
  ('\u25BF', "$\\triangledown$"),
  ('\u25C2', "$\\smallblacktriangleleft$"),
  ('\u25C3', "$\\smalltriangleleft$"),
  ('\u25C6', "\x7b\\ding\x7b117\x7d\x7d"),
  ('\u25CA', "$\\mdlgwhtlozenge$"),
  ('\u25CB', "$\\mdlgwhtcircle$"),
  ('\u25CF', "\x7b\\ding\x7b108\x7d\x7d"),
  ('\u25D0', "$\\circlelefthalfblack$"),
  ('\u25D1', "$\\circlerighthalfblack$"),
  ('\u25D2', "$\\circlebottomhalfblack$"),
  ('\u25D7', "\x7b\\ding\x7b119\x7d\x7d"),
  ('\u25D8', "$\\inversebullet$"),
  ('\u25E7', "$\\squareleftblack$"),
  ('\u25E8', "$\\squarerightblack$"),
  ('\u25EA', "$\\squarelrblack$"),
  ('\u25EF', "$\\lgwhtcircle$"),
  ('\u2605', "\x7b\\ding\x7b72\x7d\x7d"),
  ('\u2606', "\x7b\\ding\x7b73\x7d\x7d"),
  ('\u260E', "\x7b\\ding\x7b37\x7d\x7d"),
  ('\u261B', "\x7b\\ding\x7b42\x7d\x7d"),
  ('\u261E', "\x7b\\ding\x7b43\x7d\x7d"),
  ('\u263E', "\x7b\\rightmoon\x7d"),
  ('\u263F', "\x7b\\mercury\x7d"),
  ('\u2640', "\x7b\\venus\x7d"),
  ('\u2642', "\x7b\\male\x7d"),
  ('\u2643', "\x7b\\jupiter\x7d"),
  ('\u2644', "\x7b\\saturn\x7d"),
  ('\u2645', "\x7b\\uranus\x7d"),
  ('\u2646', "\x7b\\neptune\x7d"),
  ('\u2647', "\x7b\\pluto\x7d"),
  ('\u2648', "\x7b\\aries\x7d"),
  ('\u2649', "\x7b\\taurus\x7d"),
  ('\u264A', "\x7b\\gemini\x7d"),
  ('\u264B', "\x7b\\cancer\x7d"),
  ('\u264C', "\x7b\\leo\x7d"),
  ('\u264D', "\x7b\\virgo\x7d"),
  ('\u264E', "\x7b\\libra\x7d"),
  ('\u264F', "\x7b\\scorpio\x7d"),
  ('\u2650', "\x7b\\sagittarius\x7d"),
  ('\u2651', "\x7b\\capricornus\x7d"),
  ('\u2652', "\x7b\\aquarius\x7d"),
  ('\u2653', "\x7b\\pisces\x7d"),
  ('\u2660', "\x7b\\ding\x7b171\x7d\x7d"),
  ('\u2662', "$\\diamondsuit$"),
  ('\u2663', "\x7b\\ding\x7b168\x7d\x7d"),
  ('\u2665', "\x7b\\ding\x7b170\x7d\x7d"),
  ('\u2666', "\x7b\\ding\x7b169\x7d\x7d"),
  ('\u2669', "\x7b\\quarternote\x7d"),
  ('\u266A', "\x7b\\eighthnote\x7d"),
  ('\u266D', "$\\flat$"),
  ('\u266E', "$\\natural$"),
  ('\u266F', "$\\sharp$"),
  ('\u2701', "\x7b\\ding\x7b33\x7d\x7d"),
  ('\u2702', "\x7b\\ding\x7b34\x7d\x7d"),
  ('\u2703', "\x7b\\ding\x7b35\x7d\x7d"),
  ('\u2704', "\x7b\\ding\x7b36\x7d\x7d"),
  ('\u2706', "\x7b\\ding\x7b38\x7d\x7d"),
  ('\u2707', "\x7b\\ding\x7b39\x7d\x7d"),
  ('\u2708', "\x7b\\ding\x7b40\x7d\x7d"),
  ('\u2709', "\x7b\\ding\x7b41\x7d\x7d"),
  ('\u270C', "\x7b\\ding\x7b44\x7d\x7d"),
  ('\u270D', "\x7b\\ding\x7b45\x7d\x7d"),
  ('\u270E', "\x7b\\ding\x7b46\x7d\x7d"),
  ('\u270F', "\x7b\\ding\x7b47\x7d\x7d"),
  ('\u2710', "\x7b\\ding\x7b48\x7d\x7d"),
  ('\u2711', "\x7b\\ding\x7b49\x7d\x7d"),
  ('\u2712', "\x7b\\ding\x7b50\x7d\x7d"),
  ('\u2713', "\x7b\\ding\x7b51\x7d\x7d"),
  ('\u2714', "\x7b\\ding\x7b52\x7d\x7d"),
  ('\u2715', "\x7b\\ding\x7b53\x7d\x7d"),
  ('\u2716', "\x7b\\ding\x7b54\x7d\x7d"),
  ('\u2717', "\x7b\\ding\x7b55\x7d\x7d"),
  ('\u2718', "\x7b\\ding\x7b56\x7d\x7d"),
  ('\u2719', "\x7b\\ding\x7b57\x7d\x7d"),
  ('\u271A', "\x7b\\ding\x7b58\x7d\x7d"),
  ('\u271B', "\x7b\\ding\x7b59\x7d\x7d"),
  ('\u271C', "\x7b\\ding\x7b60\x7d\x7d"),
  ('\u271D', "\x7b\\ding\x7b61\x7d\x7d"),
  ('\u271E', "\x7b\\ding\x7b62\x7d\x7d"),
  ('\u271F', "\x7b\\ding\x7b63\x7d\x7d"),
  ('\u2720', "\x7b\\ding\x7b64\x7d\x7d"),
  ('\u2721', "\x7b\\ding\x7b65\x7d\x7d"),
  ('\u2722', "\x7b\\ding\x7b66\x7d\x7d"),
  ('\u2723', "\x7b\\ding\x7b67\x7d\x7d"),
  ('\u2724', "\x7b\\ding\x7b68\x7d\x7d"),
  ('\u2725', "\x7b\\ding\x7b69\x7d\x7d"),
  ('\u2726', "\x7b\\ding\x7b70\x7d\x7d"),
  ('\u2727', "\x7b\\ding\x7b71\x7d\x7d"),
  ('\u2729', "\x7b\\ding\x7b73\x7d\x7d"),
  ('\u272A', "\x7b\\ding\x7b74\x7d\x7d"),
  ('\u272B', "\x7b\\ding\x7b75\x7d\x7d"),
  ('\u272C', "\x7b\\ding\x7b76\x7d\x7d"),
  ('\u272D', "\x7b\\ding\x7b77\x7d\x7d"),
  ('\u272E', "\x7b\\ding\x7b78\x7d\x7d"),
  ('\u272F', "\x7b\\ding\x7b79\x7d\x7d"),
  ('\u2730', "\x7b\\ding\x7b80\x7d\x7d"),
  ('\u2731', "\x7b\\ding\x7b81\x7d\x7d"),
  ('\u2732', "\x7b\\ding\x7b82\x7d\x7d"),
  ('\u2733', "\x7b\\ding\x7b83\x7d\x7d"),
  ('\u2734', "\x7b\\ding\x7b84\x7d\x7d"),
  ('\u2735', "\x7b\\ding\x7b85\x7d\x7d"),
  ('\u2736', "\x7b\\ding\x7b86\x7d\x7d"),
  ('\u2737', "\x7b\\ding\x7b87\x7d\x7d"),
  ('\u2738', "\x7b\\ding\x7b88\x7d\x7d"),
  ('\u2739', "\x7b\\ding\x7b89\x7d\x7d"),
  ('\u273A', "\x7b\\ding\x7b90\x7d\x7d"),
  ('\u273B', "\x7b\\ding\x7b91\x7d\x7d"),
  ('\u273C', "\x7b\\ding\x7b92\x7d\x7d"),
  ('\u273D', "\x7b\\ding\x7b93\x7d\x7d"),
  ('\u273E', "\x7b\\ding\x7b94\x7d\x7d"),
  ('\u273F', "\x7b\\ding\x7b95\x7d\x7d"),
  ('\u2740', "\x7b\\ding\x7b96\x7d\x7d"),
  ('\u2741', "\x7b\\ding\x7b97\x7d\x7d"),
  ('\u2742', "\x7b\\ding\x7b98\x7d\x7d"),
  ('\u2743', "\x7b\\ding\x7b99\x7d\x7d"),
  ('\u2744', "\x7b\\ding\x7b100\x7d\x7d"),
  ('\u2745', "\x7b\\ding\x7b101\x7d\x7d"),
  ('\u2746', "\x7b\\ding\x7b102\x7d\x7d"),
  ('\u2747', "\x7b\\ding\x7b103\x7d\x7d"),
  ('\u2748', "\x7b\\ding\x7b104\x7d\x7d"),
  ('\u2749', "\x7b\\ding\x7b105\x7d\x7d"),
  ('\u274A', "\x7b\\ding\x7b106\x7d\x7d"),
  ('\u274B', "\x7b\\ding\x7b107\x7d\x7d"),
  ('\u274D', "\x7b\\ding\x7b109\x7d\x7d"),
  ('\u274F', "\x7b\\ding\x7b111\x7d\x7d"),
  ('\u2750', "\x7b\\ding\x7b112\x7d\x7d"),
  ('\u2751', "\x7b\\ding\x7b113\x7d\x7d"),
  ('\u2752', "\x7b\\ding\x7b114\x7d\x7d"),
  ('\u2756', "\x7b\\ding\x7b118\x7d\x7d"),
  ('\u2758', "\x7b\\ding\x7b120\x7d\x7d"),
  ('\u2759', "\x7b\\ding\x7b121\x7d\x7d"),
  ('\u275A', "\x7b\\ding\x7b122\x7d\x7d"),
  ('\u275B', "\x7b\\ding\x7b123\x7d\x7d"),
  ('\u275C', "\x7b\\ding\x7b124\x7d\x7d"),
  ('\u275D', "\x7b\\ding\x7b125\x7d\x7d"),
  ('\u275E', "\x7b\\ding\x7b126\x7d\x7d"),
  ('\u2761', "\x7b\\ding\x7b161\x7d\x7d"),
  ('\u2762', "\x7b\\ding\x7b162\x7d\x7d"),
  ('\u2763', "\x7b\\ding\x7b163\x7d\x7d"),
  ('\u2764', "\x7b\\ding\x7b164\x7d\x7d"),
  ('\u2765', "\x7b\\ding\x7b165\x7d\x7d"),
  ('\u2766', "\x7b\\ding\x7b166\x7d\x7d"),
  ('\u2767', "\x7b\\ding\x7b167\x7d\x7d"),
  ('\u2776', "\x7b\\ding\x7b182\x7d\x7d"),
  ('\u2777', "\x7b\\ding\x7b183\x7d\x7d"),
  ('\u2778', "\x7b\\ding\x7b184\x7d\x7d"),
  ('\u2779', "\x7b\\ding\x7b185\x7d\x7d"),
  ('\u277A', "\x7b\\ding\x7b186\x7d\x7d"),
  ('\u277B', "\x7b\\ding\x7b187\x7d\x7d"),
  ('\u277C', "\x7b\\ding\x7b188\x7d\x7d"),
  ('\u277D', "\x7b\\ding\x7b189\x7d\x7d"),
  ('\u277E', "\x7b\\ding\x7b190\x7d\x7d"),
  ('\u277F', "\x7b\\ding\x7b191\x7d\x7d"),
  ('\u2780', "\x7b\\ding\x7b192\x7d\x7d"),
  ('\u2781', "\x7b\\ding\x7b193\x7d\x7d"),
  ('\u2782', "\x7b\\ding\x7b194\x7d\x7d"),
  ('\u2783', "\x7b\\ding\x7b195\x7d\x7d"),
  ('\u2784', "\x7b\\ding\x7b196\x7d\x7d"),
  ('\u2785', "\x7b\\ding\x7b197\x7d\x7d"),
  ('\u2786', "\x7b\\ding\x7b198\x7d\x7d"),
  ('\u2787', "\x7b\\ding\x7b199\x7d\x7d"),
  ('\u2788', "\x7b\\ding\x7b200\x7d\x7d"),
  ('\u2789', "\x7b\\ding\x7b201\x7d\x7d"),
  ('\u278A', "\x7b\\ding\x7b202\x7d\x7d"),
  ('\u278B', "\x7b\\ding\x7b203\x7d\x7d"),
  ('\u278C', "\x7b\\ding\x7b204\x7d\x7d"),
  ('\u278D', "\x7b\\ding\x7b205\x7d\x7d"),
  ('\u278E', "\x7b\\ding\x7b206\x7d\x7d"),
  ('\u278F', "\x7b\\ding\x7b207\x7d\x7d"),
  ('\u2790', "\x7b\\ding\x7b208\x7d\x7d"),
  ('\u2791', "\x7b\\ding\x7b209\x7d\x7d"),
  ('\u2792', "\x7b\\ding\x7b210\x7d\x7d"),
  ('\u2793', "\x7b\\ding\x7b211\x7d\x7d"),
  ('\u2794', "\x7b\\ding\x7b212\x7d\x7d"),
  ('\u2798', "\x7b\\ding\x7b216\x7d\x7d"),
  ('\u2799', "\x7b\\ding\x7b217\x7d\x7d"),
  ('\u279A', "\x7b\\ding\x7b218\x7d\x7d"),
  ('\u279B', "\x7b\\ding\x7b219\x7d\x7d"),
  ('\u279C', "\x7b\\ding\x7b220\x7d\x7d"),
  ('\u279D', "\x7b\\ding\x7b221\x7d\x7d"),
  ('\u279E', "\x7b\\ding\x7b222\x7d\x7d"),
  ('\u279F', "\x7b\\ding\x7b223\x7d\x7d"),
  ('\u27A0', "\x7b\\ding\x7b224\x7d\x7d"),
  ('\u27A1', "\x7b\\ding\x7b225\x7d\x7d"),
  ('\u27A2', "\x7b\\ding\x7b226\x7d\x7d"),
  ('\u27A3', "\x7b\\ding\x7b227\x7d\x7d"),
  ('\u27A4', "\x7b\\ding\x7b228\x7d\x7d"),
  ('\u27A5', "\x7b\\ding\x7b229\x7d\x7d"),
  ('\u27A6', "\x7b\\ding\x7b230\x7d\x7d"),
  ('\u27A7', "\x7b\\ding\x7b231\x7d\x7d"),
  ('\u27A8', "\x7b\\ding\x7b232\x7d\x7d"),
  ('\u27A9', "\x7b\\ding\x7b233\x7d\x7d"),
  ('\u27AA', "\x7b\\ding\x7b234\x7d\x7d"),
  ('\u27AB', "\x7b\\ding\x7b235\x7d\x7d"),
  ('\u27AC', "\x7b\\ding\x7b236\x7d\x7d"),
  ('\u27AD', "\x7b\\ding\x7b237\x7d\x7d"),
  ('\u27AE', "\x7b\\ding\x7b238\x7d\x7d"),
  ('\u27AF', "\x7b\\ding\x7b239\x7d\x7d"),
  ('\u27B1', "\x7b\\ding\x7b241\x7d\x7d"),
  ('\u27B2', "\x7b\\ding\x7b242\x7d\x7d"),
  ('\u27B3', "\x7b\\ding\x7b243\x7d\x7d"),
  ('\u27B4', "\x7b\\ding\x7b244\x7d\x7d"),
  ('\u27B5', "\x7b\\ding\x7b245\x7d\x7d"),
  ('\u27B6', "\x7b\\ding\x7b246\x7d\x7d"),
  ('\u27B7', "\x7b\\ding\x7b247\x7d\x7d"),
  ('\u27B8', "\x7b\\ding\x7b248\x7d\x7d"),
  ('\u27B9', "\x7b\\ding\x7b249\x7d\x7d"),
  ('\u27BA', "\x7b\\ding\x7b250\x7d\x7d"),
  ('\u27BB', "\x7b\\ding\x7b251\x7d\x7d"),
  ('\u27BC', "\x7b\\ding\x7b252\x7d\x7d"),
  ('\u27BD', "\x7b\\ding\x7b253\x7d\x7d"),
  ('\u27BE', "\x7b\\ding\x7b254\x7d\x7d"),
  ('\u27E8', "\x7b\\langle\x7d"),
  ('\u27E9', "\x7b\\rangle\x7d"),
  ('\u27F5', "$\\longleftarrow$"),
  ('\u27F6', "$\\longrightarrow$"),
  ('\u27F7', "$\\longleftrightarrow$"),
  ('\u27F8', "$\\Longleftarrow$"),
  ('\u27F9', "$\\Longrightarrow$"),
  ('\u27FA', "$\\Longleftrightarrow$"),
  ('\u27FC', "$\\longmapsto$"),
  ('\u27FF', "$\\longrightsquigarrow$"),
  ('\u2905', "$\\twoheadmapsto$"),
  ('\u2912', "$\\baruparrow$"),
  ('\u2913', "$\\downarrowbar$"),
  ('\u2923', "$\\hknwarrow$"),
  ('\u2924', "$\\hknearrow$"),
  ('\u2925', "$\\hksearow$"),
  ('\u2926', "$\\hkswarow$"),
  ('\u2927', "$\\tona$"),
  ('\u2928', "$\\toea$"),
  ('\u2929', "$\\tosa$"),
  ('\u292A', "$\\towa$"),
  ('\u2933', "$\\rightcurvedarrow$"),
  ('\u2936', "$\\leftdowncurvedarrow$"),
  ('\u2937', "$\\rightdowncurvedarrow$"),
  ('\u2940', "$\\acwcirclearrow$"),
  ('\u2941', "$\\cwcirclearrow$"),
  ('\u2942', "$\\rightarrowshortleftarrow$"),
  ('\u2944', "$\\shortrightarrowleftarrow$"),
  ('\u2947', "$\\rightarrowx$"),
  ('\u294E', "$\\leftrightharpoonupup$"),
  ('\u294F', "$\\updownharpoonrightright$"),
  ('\u2950', "$\\leftrightharpoondowndown$"),
  ('\u2951', "$\\updownharpoonleftleft$"),
  ('\u2952', "$\\barleftharpoonup$"),
  ('\u2953', "$\\rightharpoonupbar$"),
  ('\u2954', "$\\barupharpoonright$"),
  ('\u2955', "$\\downharpoonrightbar$"),
  ('\u2956', "$\\barleftharpoondown$"),
  ('\u2957', "$\\rightharpoondownbar$"),
  ('\u2958', "$\\barupharpoonleft$"),
  ('\u2959', "$\\downharpoonleftbar$"),
  ('\u295A', "$\\leftharpoonupbar$"),
  ('\u295B', "$\\barrightharpoonup$"),
  ('\u295C', "$\\upharpoonrightbar$"),
  ('\u295D', "$\\bardownharpoonright$"),
  ('\u295E', "$\\leftharpoondownbar$"),
  ('\u295F', "$\\barrightharpoondown$"),
  ('\u2960', "$\\upharpoonleftbar$"),
  ('\u2961', "$\\bardownharpoonleft$"),
  ('\u296E', "$\\updownharpoonsleftright$"),
  ('\u296F', "$\\downupharpoonsleftright$"),
  ('\u2970', "$\\rightimply$"),
  ('\u297C', "$\\leftfishtail$"),
  ('\u297D', "$\\rightfishtail$"),
  ('\u2980', "$\\Vvert$"),
  ('\u2985', "$\\lParen$"),
  ('\u2986', "$\\rParen$"),
  ('\u2993', "$\\lparenless$"),
  ('\u2994', "$\\rparengtr$"),
  ('\u2999', "$\\fourvdots$"),
  ('\u299C', "$\\rightanglesqr$"),
  ('\u29A0', "$\\gtlpar$"),
  ('\u29B5', "$\\circlehbar$"),
  ('\u29B6', "$\\circledvert$"),
  ('\u29CA', "$\\triangleodot$"),
  ('\u29CB', "$\\triangleubar$"),
  ('\u29CF', "$\\ltrivb$"),
  ('\u29D0', "$\\vbrtri$"),
  ('\u29DC', "$\\iinfin$"),
  ('\u29EB', "$\\mdlgblklozenge$"),
  ('\u29F4', "$\\ruledelayed$"),
  ('\u2A04', "$\\biguplus$"),
  ('\u2A05', "$\\bigsqcap$"),
  ('\u2A06', "$\\bigsqcup$"),
  ('\u2A07', "$\\conjquant$"),
  ('\u2A08', "$\\disjquant$"),
  ('\u2A0D', "$\\intbar$"),
  ('\u2A0F', "$\\fint$"),
  ('\u2A10', "$\\cirfnint$"),
  ('\u2A16', "$\\sqint$"),
  ('\u2A25', "$\\plusdot$"),
  ('\u2A2A', "$\\minusdot$"),
  ('\u2A2D', "$\\opluslhrim$"),
  ('\u2A2E', "$\\oplusrhrim$"),
  ('\u2A2F', "$\\vectimes$"),
  ('\u2A34', "$\\otimeslhrim$"),
  ('\u2A35', "$\\otimesrhrim$"),
  ('\u2A3C', "$\\intprod$"),
  ('\u2A3F', "$\\amalg$"),
  ('\u2A53', "$\\Wedge$"),
  ('\u2A54', "$\\Vee$"),
  ('\u2A55', "$\\wedgeonwedge$"),
  ('\u2A56', "$\\veeonvee$"),
  ('\u2A5E', "$\\doublebarwedge$"),
  ('\u2A5F', "$\\wedgebar$"),
  ('\u2A63', "$\\veedoublebar$"),
  ('\u2A6E', "$\\asteq$"),
  ('\u2A75', "$\\eqeq$"),
  ('\u2A7D', "$\\leqslant$"),
  ('\u2A7E', "$\\geqslant$"),
  ('\u2A85', "$\\lessapprox$"),
  ('\u2A86', "$\\gtrapprox$"),
  ('\u2A87', "$\\lneq$"),
  ('\u2A88', "$\\gneq$"),
  ('\u2A89', "$\\lnapprox$"),
  ('\u2A8A', "$\\gnapprox$"),
  ('\u2A8B', "$\\lesseqqgtr$"),
  ('\u2A8C', "$\\gtreqqless$"),
  ('\u2A95', "$\\eqslantless$"),
  ('\u2A96', "$\\eqslantgtr$"),
  ('\u2A9D', "$\\simless$"),
  ('\u2A9E', "$\\simgtr$"),
  ('\u2AA1', "$\\Lt$"),
  ('\u2AA2', "$\\Gt$"),
  ('\u2AAF', "$\\preceq$"),
  ('\u2AB0', "$\\succeq$"),
  ('\u2AB5', "$\\precneqq$"),
  ('\u2AB6', "$\\succneqq$"),
  ('\u2AB7', "$\\precapprox$"),
  ('\u2AB8', "$\\succapprox$"),
  ('\u2AB9', "$\\precnapprox$"),
  ('\u2ABA', "$\\succnapprox$"),
  ('\u2AC5', "$\\subseteqq$"),
  ('\u2AC6', "$\\supseteqq$"),
  ('\u2ACB', "$\\subsetneqq$"),
  ('\u2ACC', "$\\supsetneqq$"),
  ('\u2AEB', "$\\Vbar$"),
  ('\u2AF6', "$\\threedotcolon$"),
  ('\u2AFD', "$\\sslash$"),
  ('\u300A', "\x7b\\ElsevierGlyph\x7b300A\x7d\x7d"),
  ('\u300B', "\x7b\\ElsevierGlyph\x7b300B\x7d\x7d"),
  ('\u3018', "$\\Lbrbrak$"),
  ('\u3019', "$\\Rbrbrak$"),
  ('\u301A', "\x7b\\openbracketleft\x7d"),
  ('\u301B', "\x7b\\openbracketright\x7d"),
  ('\uFB00', "ff"),
  ('\uFB01', "fi"),
  ('\uFB02', "fl"),
  ('\uFB03', "ffi"),
  ('\uFB04', "ffl"),
  ('\uD400', "$\\mbfA$"),
  ('\uD401', "$\\mbfB$"),
  ('\uD402', "$\\mbfC$"),
  ('\uD403', "$\\mbfD$"),
  ('\uD404', "$\\mbfE$"),
  ('\uD405', "$\\mbfF$"),
  ('\uD406', "$\\mbfG$"),
  ('\uD407', "$\\mbfH$"),
  ('\uD408', "$\\mbfI$"),
  ('\uD409', "$\\mbfJ$"),
  ('\uD40A', "$\\mbfK$"),
  ('\uD40B', "$\\mbfL$"),
  ('\uD40C', "$\\mbfM$"),
  ('\uD40D', "$\\mbfN$"),
  ('\uD40E', "$\\mbfO$"),
  ('\uD40F', "$\\mbfP$"),
  ('\uD410', "$\\mbfQ$"),
  ('\uD411', "$\\mbfR$"),
  ('\uD412', "$\\mbfS$"),
  ('\uD413', "$\\mbfT$"),
  ('\uD414', "$\\mbfU$"),
  ('\uD415', "$\\mbfV$"),
  ('\uD416', "$\\mbfW$"),
  ('\uD417', "$\\mbfX$"),
  ('\uD418', "$\\mbfY$"),
  ('\uD419', "$\\mbfZ$"),
  ('\uD41A', "$\\mbfa$"),
  ('\uD41B', "$\\mbfb$"),
  ('\uD41C', "$\\mbfc$"),
  ('\uD41D', "$\\mbfd$"),
  ('\uD41E', "$\\mbfe$"),
  ('\uD41F', "$\\mbff$"),
  ('\uD420', "$\\mbfg$"),
  ('\uD421', "$\\mbfh$"),
  ('\uD422', "$\\mbfi$"),
  ('\uD423', "$\\mbfj$"),
  ('\uD424', "$\\mbfk$"),
  ('\uD425', "$\\mbfl$"),
  ('\uD426', "$\\mbfm$"),
  ('\uD427', "$\\mbfn$"),
  ('\uD428', "$\\mbfo$"),
  ('\uD429', "$\\mbfp$"),
  ('\uD42A', "$\\mbfq$"),
  ('\uD42B', "$\\mbfr$"),
  ('\uD42C', "$\\mbfs$"),
  ('\uD42D', "$\\mbft$"),
  ('\uD42E', "$\\mbfu$"),
  ('\uD42F', "$\\mbfv$"),
  ('\uD430', "$\\mbfw$"),
  ('\uD431', "$\\mbfx$"),
  ('\uD432', "$\\mbfy$"),
  ('\uD433', "$\\mbfz$"),
  ('\uD434', "$\\mitA$"),
  ('\uD435', "$\\mitB$"),
  ('\uD436', "$\\mitC$"),
  ('\uD437', "$\\mitD$"),
  ('\uD438', "$\\mitE$"),
  ('\uD439', "$\\mitF$"),
  ('\uD43A', "$\\mitG$"),
  ('\uD43B', "$\\mitH$"),
  ('\uD43C', "$\\mitI$"),
  ('\uD43D', "$\\mitJ$"),
  ('\uD43E', "$\\mitK$"),
  ('\uD43F', "$\\mitL$"),
  ('\uD440', "$\\mitM$"),
  ('\uD441', "$\\mitN$"),
  ('\uD442', "$\\mitO$"),
  ('\uD443', "$\\mitP$"),
  ('\uD444', "$\\mitQ$"),
  ('\uD445', "$\\mitR$"),
  ('\uD446', "$\\mitS$"),
  ('\uD447', "$\\mitT$"),
  ('\uD448', "$\\mitU$"),
  ('\uD449', "$\\mitV$"),
  ('\uD44A', "$\\mitW$"),
  ('\uD44B', "$\\mitX$"),
  ('\uD44C', "$\\mitY$"),
  ('\uD44D', "$\\mitZ$"),
  ('\uD44E', "$\\mita$"),
  ('\uD44F', "$\\mitb$"),
  ('\uD450', "$\\mitc$"),
  ('\uD451', "$\\mitd$"),
  ('\uD452', "$\\mite$"),
  ('\uD453', "$\\mitf$"),
  ('\uD454', "$\\mitg$"),
  ('\uD456', "$\\miti$"),
  ('\uD457', "$\\mitj$"),
  ('\uD458', "$\\mitk$"),
  ('\uD459', "$\\mitl$"),
  ('\uD45A', "$\\mitm$"),
  ('\uD45B', "$\\mitn$"),
  ('\uD45C', "$\\mito$"),
  ('\uD45D', "$\\mitp$"),
  ('\uD45E', "$\\mitq$"),
  ('\uD45F', "$\\mitr$"),
  ('\uD460', "$\\mits$"),
  ('\uD461', "$\\mitt$"),
  ('\uD462', "$\\mitu$"),
  ('\uD463', "$\\mitv$"),
  ('\uD464', "$\\mitw$"),
  ('\uD465', "$\\mitx$"),
  ('\uD466', "$\\mity$"),
  ('\uD467', "$\\mitz$"),
  ('\uD468', "$\\mbfitA$"),
  ('\uD469', "$\\mbfitB$"),
  ('\uD46A', "$\\mbfitC$"),
  ('\uD46B', "$\\mbfitD$"),
  ('\uD46C', "$\\mbfitE$"),
  ('\uD46D', "$\\mbfitF$"),
  ('\uD46E', "$\\mbfitG$"),
  ('\uD46F', "$\\mbfitH$"),
  ('\uD470', "$\\mbfitI$"),
  ('\uD471', "$\\mbfitJ$"),
  ('\uD472', "$\\mbfitK$"),
  ('\uD473', "$\\mbfitL$"),
  ('\uD474', "$\\mbfitM$"),
  ('\uD475', "$\\mbfitN$"),
  ('\uD476', "$\\mbfitO$"),
  ('\uD477', "$\\mbfitP$"),
  ('\uD478', "$\\mbfitQ$"),
  ('\uD479', "$\\mbfitR$"),
  ('\uD47A', "$\\mbfitS$"),
  ('\uD47B', "$\\mbfitT$"),
  ('\uD47C', "$\\mbfitU$"),
  ('\uD47D', "$\\mbfitV$"),
  ('\uD47E', "$\\mbfitW$"),
  ('\uD47F', "$\\mbfitX$"),
  ('\uD480', "$\\mbfitY$"),
  ('\uD481', "$\\mbfitZ$"),
  ('\uD482', "$\\mbfita$"),
  ('\uD483', "$\\mbfitb$"),
  ('\uD484', "$\\mbfitc$"),
  ('\uD485', "$\\mbfitd$"),
  ('\uD486', "$\\mbfite$"),
  ('\uD487', "$\\mbfitf$"),
  ('\uD488', "$\\mbfitg$"),
  ('\uD489', "$\\mbfith$"),
  ('\uD48A', "$\\mbfiti$"),
  ('\uD48B', "$\\mbfitj$"),
  ('\uD48C', "$\\mbfitk$"),
  ('\uD48D', "$\\mbfitl$"),
  ('\uD48E', "$\\mbfitm$"),
  ('\uD48F', "$\\mbfitn$"),
  ('\uD490', "$\\mbfito$"),
  ('\uD491', "$\\mbfitp$"),
  ('\uD492', "$\\mbfitq$"),
  ('\uD493', "$\\mbfitr$"),
  ('\uD494', "$\\mbfits$"),
  ('\uD495', "$\\mbfitt$"),
  ('\uD496', "$\\mbfitu$"),
  ('\uD497', "$\\mbfitv$"),
  ('\uD498', "$\\mbfitw$"),
  ('\uD499', "$\\mbfitx$"),
  ('\uD49A', "$\\mbfity$"),
  ('\uD49B', "$\\mbfitz$"),
  ('\uD49C', "$\\mscrA$"),
  ('\uD49E', "$\\mscrC$"),
  ('\uD49F', "$\\mscrD$"),
  ('\uD4A2', "$\\mscrG$"),
  ('\uD4A5', "$\\mscrJ$"),
  ('\uD4A6', "$\\mscrK$"),
  ('\uD4A9', "$\\mscrN$"),
  ('\uD4AA', "$\\mscrO$"),
  ('\uD4AB', "$\\mscrP$"),
  ('\uD4AC', "$\\mscrQ$"),
  ('\uD4AE', "$\\mscrS$"),
  ('\uD4AF', "$\\mscrT$"),
  ('\uD4B0', "$\\mscrU$"),
  ('\uD4B1', "$\\mscrV$"),
  ('\uD4B2', "$\\mscrW$"),
  ('\uD4B3', "$\\mscrX$"),
  ('\uD4B4', "$\\mscrY$"),
  ('\uD4B5', "$\\mscrZ$"),
  ('\uD4B6', "$\\mscra$"),
  ('\uD4B7', "$\\mscrb$"),
  ('\uD4B8', "$\\mscrc$"),
  ('\uD4B9', "$\\mscrd$"),
  ('\uD4BB', "$\\mscrf$"),
  ('\uD4BD', "$\\mscrh$"),
  ('\uD4BE', "$\\mscri$"),
  ('\uD4BF', "$\\mscrj$"),
  ('\uD4C0', "$\\mscrk$"),
  ('\uD4C1', "$\\mscrl$"),
  ('\uD4C2', "$\\mscrm$"),
  ('\uD4C3', "$\\mscrn$"),
  ('\uD4C5', "$\\mscrp$"),
  ('\uD4C6', "$\\mscrq$"),
  ('\uD4C7', "$\\mscrr$"),
  ('\uD4C8', "$\\mscrs$"),
  ('\uD4C9', "$\\mscrt$"),
  ('\uD4CA', "$\\mscru$"),
  ('\uD4CB', "$\\mscrv$"),
  ('\uD4CC', "$\\mscrw$"),
  ('\uD4CD', "$\\mscrx$"),
  ('\uD4CE', "$\\mscry$"),
  ('\uD4CF', "$\\mscrz$"),
  ('\uD4D0', "$\\mbfscrA$"),
  ('\uD4D1', "$\\mbfscrB$"),
  ('\uD4D2', "$\\mbfscrC$"),
  ('\uD4D3', "$\\mbfscrD$"),
  ('\uD4D4', "$\\mbfscrE$"),
  ('\uD4D5', "$\\mbfscrF$"),
  ('\uD4D6', "$\\mbfscrG$"),
  ('\uD4D7', "$\\mbfscrH$"),
  ('\uD4D8', "$\\mbfscrI$"),
  ('\uD4D9', "$\\mbfscrJ$"),
  ('\uD4DA', "$\\mbfscrK$"),
  ('\uD4DB', "$\\mbfscrL$"),
  ('\uD4DC', "$\\mbfscrM$"),
  ('\uD4DD', "$\\mbfscrN$"),
  ('\uD4DE', "$\\mbfscrO$"),
  ('\uD4DF', "$\\mbfscrP$"),
  ('\uD4E0', "$\\mbfscrQ$"),
  ('\uD4E1', "$\\mbfscrR$"),
  ('\uD4E2', "$\\mbfscrS$"),
  ('\uD4E3', "$\\mbfscrT$"),
  ('\uD4E4', "$\\mbfscrU$"),
  ('\uD4E5', "$\\mbfscrV$"),
  ('\uD4E6', "$\\mbfscrW$"),
  ('\uD4E7', "$\\mbfscrX$"),
  ('\uD4E8', "$\\mbfscrY$"),
  ('\uD4E9', "$\\mbfscrZ$"),
  ('\uD4EA', "$\\mbfscra$"),
  ('\uD4EB', "$\\mbfscrb$"),
  ('\uD4EC', "$\\mbfscrc$"),
  ('\uD4ED', "$\\mbfscrd$"),
  ('\uD4EE', "$\\mbfscre$"),
  ('\uD4EF', "$\\mbfscrf$"),
  ('\uD4F0', "$\\mbfscrg$"),
  ('\uD4F1', "$\\mbfscrh$"),
  ('\uD4F2', "$\\mbfscri$"),
  ('\uD4F3', "$\\mbfscrj$"),
  ('\uD4F4', "$\\mbfscrk$"),
  ('\uD4F5', "$\\mbfscrl$"),
  ('\uD4F6', "$\\mbfscrm$"),
  ('\uD4F7', "$\\mbfscrn$"),
  ('\uD4F8', "$\\mbfscro$"),
  ('\uD4F9', "$\\mbfscrp$"),
  ('\uD4FA', "$\\mbfscrq$"),
  ('\uD4FB', "$\\mbfscrr$"),
  ('\uD4FC', "$\\mbfscrs$"),
  ('\uD4FD', "$\\mbfscrt$"),
  ('\uD4FE', "$\\mbfscru$"),
  ('\uD4FF', "$\\mbfscrv$"),
  ('\uD500', "$\\mbfscrw$"),
  ('\uD501', "$\\mbfscrx$"),
  ('\uD502', "$\\mbfscry$"),
  ('\uD503', "$\\mbfscrz$"),
  ('\uD504', "$\\mfrakA$"),
  ('\uD505', "$\\mfrakB$"),
  ('\uD507', "$\\mfrakD$"),
  ('\uD508', "$\\mfrakE$"),
  ('\uD509', "$\\mfrakF$"),
  ('\uD50A', "$\\mfrakG$"),
  ('\uD50D', "$\\mfrakJ$"),
  ('\uD50E', "$\\mfrakK$"),
  ('\uD50F', "$\\mfrakL$"),
  ('\uD510', "$\\mfrakM$"),
  ('\uD511', "$\\mfrakN$"),
  ('\uD512', "$\\mfrakO$"),
  ('\uD513', "$\\mfrakP$"),
  ('\uD514', "$\\mfrakQ$"),
  ('\uD516', "$\\mfrakS$"),
  ('\uD517', "$\\mfrakT$"),
  ('\uD518', "$\\mfrakU$"),
  ('\uD519', "$\\mfrakV$"),
  ('\uD51A', "$\\mfrakW$"),
  ('\uD51B', "$\\mfrakX$"),
  ('\uD51C', "$\\mfrakY$"),
  ('\uD51E', "$\\mfraka$"),
  ('\uD51F', "$\\mfrakb$"),
  ('\uD520', "$\\mfrakc$"),
  ('\uD521', "$\\mfrakd$"),
  ('\uD522', "$\\mfrake$"),
  ('\uD523', "$\\mfrakf$"),
  ('\uD524', "$\\mfrakg$"),
  ('\uD525', "$\\mfrakh$"),
  ('\uD526', "$\\mfraki$"),
  ('\uD527', "$\\mfrakj$"),
  ('\uD528', "$\\mfrakk$"),
  ('\uD529', "$\\mfrakl$"),
  ('\uD52A', "$\\mfrakm$"),
  ('\uD52B', "$\\mfrakn$"),
  ('\uD52C', "$\\mfrako$"),
  ('\uD52D', "$\\mfrakp$"),
  ('\uD52E', "$\\mfrakq$"),
  ('\uD52F', "$\\mfrakr$"),
  ('\uD530', "$\\mfraks$"),
  ('\uD531', "$\\mfrakt$"),
  ('\uD532', "$\\mfraku$"),
  ('\uD533', "$\\mfrakv$"),
  ('\uD534', "$\\mfrakw$"),
  ('\uD535', "$\\mfrakx$"),
  ('\uD536', "$\\mfraky$"),
  ('\uD537', "$\\mfrakz$"),
  ('\uD538', "$\\BbbA$"),
  ('\uD539', "$\\BbbB$"),
  ('\uD53B', "$\\BbbD$"),
  ('\uD53C', "$\\BbbE$"),
  ('\uD53D', "$\\BbbF$"),
  ('\uD53E', "$\\BbbG$"),
  ('\uD540', "$\\BbbI$"),
  ('\uD541', "$\\BbbJ$"),
  ('\uD542', "$\\BbbK$"),
  ('\uD543', "$\\BbbL$"),
  ('\uD544', "$\\BbbM$"),
  ('\uD546', "$\\BbbO$"),
  ('\uD54A', "$\\BbbS$"),
  ('\uD54B', "$\\BbbT$"),
  ('\uD54C', "$\\BbbU$"),
  ('\uD54D', "$\\BbbV$"),
  ('\uD54E', "$\\BbbW$"),
  ('\uD54F', "$\\BbbX$"),
  ('\uD550', "$\\BbbY$"),
  ('\uD552', "$\\Bbba$"),
  ('\uD553', "$\\Bbbb$"),
  ('\uD554', "$\\Bbbc$"),
  ('\uD555', "$\\Bbbd$"),
  ('\uD556', "$\\Bbbe$"),
  ('\uD557', "$\\Bbbf$"),
  ('\uD558', "$\\Bbbg$"),
  ('\uD559', "$\\Bbbh$"),
  ('\uD55A', "$\\Bbbi$"),
  ('\uD55B', "$\\Bbbj$"),
  ('\uD55C', "$\\Bbbk$"),
  ('\uD55D', "$\\Bbbl$"),
  ('\uD55E', "$\\Bbbm$"),
  ('\uD55F', "$\\Bbbn$"),
  ('\uD560', "$\\Bbbo$"),
  ('\uD561', "$\\Bbbp$"),
  ('\uD562', "$\\Bbbq$"),
  ('\uD563', "$\\Bbbr$"),
  ('\uD564', "$\\Bbbs$"),
  ('\uD565', "$\\Bbbt$"),
  ('\uD566', "$\\Bbbu$"),
  ('\uD567', "$\\Bbbv$"),
  ('\uD568', "$\\Bbbw$"),
  ('\uD569', "$\\Bbbx$"),
  ('\uD56A', "$\\Bbby$"),
  ('\uD56B', "$\\Bbbz$"),
  ('\uD56C', "$\\mbffrakA$"),
  ('\uD56D', "$\\mbffrakB$"),
  ('\uD56E', "$\\mbffrakC$"),
  ('\uD56F', "$\\mbffrakD$"),
  ('\uD570', "$\\mbffrakE$"),
  ('\uD571', "$\\mbffrakF$"),
  ('\uD572', "$\\mbffrakG$"),
  ('\uD573', "$\\mbffrakH$"),
  ('\uD574', "$\\mbffrakI$"),
  ('\uD575', "$\\mbffrakJ$"),
  ('\uD576', "$\\mbffrakK$"),
  ('\uD577', "$\\mbffrakL$"),
  ('\uD578', "$\\mbffrakM$"),
  ('\uD579', "$\\mbffrakN$"),
  ('\uD57A', "$\\mbffrakO$"),
  ('\uD57B', "$\\mbffrakP$"),
  ('\uD57C', "$\\mbffrakQ$"),
  ('\uD57D', "$\\mbffrakR$"),
  ('\uD57E', "$\\mbffrakS$"),
  ('\uD57F', "$\\mbffrakT$"),
  ('\uD580', "$\\mbffrakU$"),
  ('\uD581', "$\\mbffrakV$"),
  ('\uD582', "$\\mbffrakW$"),
  ('\uD583', "$\\mbffrakX$"),
  ('\uD584', "$\\mbffrakY$"),
  ('\uD585', "$\\mbffrakZ$"),
  ('\uD586', "$\\mbffraka$"),
  ('\uD587', "$\\mbffrakb$"),
  ('\uD588', "$\\mbffrakc$"),
  ('\uD589', "$\\mbffrakd$"),
  ('\uD58A', "$\\mbffrake$"),
  ('\uD58B', "$\\mbffrakf$"),
  ('\uD58C', "$\\mbffrakg$"),
  ('\uD58D', "$\\mbffrakh$"),
  ('\uD58E', "$\\mbffraki$"),
  ('\uD58F', "$\\mbffrakj$"),
  ('\uD590', "$\\mbffrakk$"),
  ('\uD591', "$\\mbffrakl$"),
  ('\uD592', "$\\mbffrakm$"),
  ('\uD593', "$\\mbffrakn$"),
  ('\uD594', "$\\mbffrako$"),
  ('\uD595', "$\\mbffrakp$"),
  ('\uD596', "$\\mbffrakq$"),
  ('\uD597', "$\\mbffrakr$"),
  ('\uD598', "$\\mbffraks$"),
  ('\uD599', "$\\mbffrakt$"),
  ('\uD59A', "$\\mbffraku$"),
  ('\uD59B', "$\\mbffrakv$"),
  ('\uD59C', "$\\mbffrakw$"),
  ('\uD59D', "$\\mbffrakx$"),
  ('\uD59E', "$\\mbffraky$"),
  ('\uD59F', "$\\mbffrakz$"),
  ('\uD5A0', "$\\msansA$"),
  ('\uD5A1', "$\\msansB$"),
  ('\uD5A2', "$\\msansC$"),
  ('\uD5A3', "$\\msansD$"),
  ('\uD5A4', "$\\msansE$"),
  ('\uD5A5', "$\\msansF$"),
  ('\uD5A6', "$\\msansG$"),
  ('\uD5A7', "$\\msansH$"),
  ('\uD5A8', "$\\msansI$"),
  ('\uD5A9', "$\\msansJ$"),
  ('\uD5AA', "$\\msansK$"),
  ('\uD5AB', "$\\msansL$"),
  ('\uD5AC', "$\\msansM$"),
  ('\uD5AD', "$\\msansN$"),
  ('\uD5AE', "$\\msansO$"),
  ('\uD5AF', "$\\msansP$"),
  ('\uD5B0', "$\\msansQ$"),
  ('\uD5B1', "$\\msansR$"),
  ('\uD5B2', "$\\msansS$"),
  ('\uD5B3', "$\\msansT$"),
  ('\uD5B4', "$\\msansU$"),
  ('\uD5B5', "$\\msansV$"),
  ('\uD5B6', "$\\msansW$"),
  ('\uD5B7', "$\\msansX$"),
  ('\uD5B8', "$\\msansY$"),
  ('\uD5B9', "$\\msansZ$"),
  ('\uD5BA', "$\\msansa$"),
  ('\uD5BB', "$\\msansb$"),
  ('\uD5BC', "$\\msansc$"),
  ('\uD5BD', "$\\msansd$"),
  ('\uD5BE', "$\\msanse$"),
  ('\uD5BF', "$\\msansf$"),
  ('\uD5C0', "$\\msansg$"),
  ('\uD5C1', "$\\msansh$"),
  ('\uD5C2', "$\\msansi$"),
  ('\uD5C3', "$\\msansj$"),
  ('\uD5C4', "$\\msansk$"),
  ('\uD5C5', "$\\msansl$"),
  ('\uD5C6', "$\\msansm$"),
  ('\uD5C7', "$\\msansn$"),
  ('\uD5C8', "$\\msanso$"),
  ('\uD5C9', "$\\msansp$"),
  ('\uD5CA', "$\\msansq$"),
  ('\uD5CB', "$\\msansr$"),
  ('\uD5CC', "$\\msanss$"),
  ('\uD5CD', "$\\msanst$"),
  ('\uD5CE', "$\\msansu$"),
  ('\uD5CF', "$\\msansv$"),
  ('\uD5D0', "$\\msansw$"),
  ('\uD5D1', "$\\msansx$"),
  ('\uD5D2', "$\\msansy$"),
  ('\uD5D3', "$\\msansz$"),
  ('\uD5D4', "$\\mbfsansA$"),
  ('\uD5D5', "$\\mbfsansB$"),
  ('\uD5D6', "$\\mbfsansC$"),
  ('\uD5D7', "$\\mbfsansD$"),
  ('\uD5D8', "$\\mbfsansE$"),
  ('\uD5D9', "$\\mbfsansF$"),
  ('\uD5DA', "$\\mbfsansG$"),
  ('\uD5DB', "$\\mbfsansH$"),
  ('\uD5DC', "$\\mbfsansI$"),
  ('\uD5DD', "$\\mbfsansJ$"),
  ('\uD5DE', "$\\mbfsansK$"),
  ('\uD5DF', "$\\mbfsansL$"),
  ('\uD5E0', "$\\mbfsansM$"),
  ('\uD5E1', "$\\mbfsansN$"),
  ('\uD5E2', "$\\mbfsansO$"),
  ('\uD5E3', "$\\mbfsansP$"),
  ('\uD5E4', "$\\mbfsansQ$"),
  ('\uD5E5', "$\\mbfsansR$"),
  ('\uD5E6', "$\\mbfsansS$"),
  ('\uD5E7', "$\\mbfsansT$"),
  ('\uD5E8', "$\\mbfsansU$"),
  ('\uD5E9', "$\\mbfsansV$"),
  ('\uD5EA', "$\\mbfsansW$"),
  ('\uD5EB', "$\\mbfsansX$"),
  ('\uD5EC', "$\\mbfsansY$"),
  ('\uD5ED', "$\\mbfsansZ$"),
  ('\uD5EE', "$\\mbfsansa$"),
  ('\uD5EF', "$\\mbfsansb$"),
  ('\uD5F0', "$\\mbfsansc$"),
  ('\uD5F1', "$\\mbfsansd$"),
  ('\uD5F2', "$\\mbfsanse$"),
  ('\uD5F3', "$\\mbfsansf$"),
  ('\uD5F4', "$\\mbfsansg$"),
  ('\uD5F5', "$\\mbfsansh$"),
  ('\uD5F6', "$\\mbfsansi$"),
  ('\uD5F7', "$\\mbfsansj$"),
  ('\uD5F8', "$\\mbfsansk$"),
  ('\uD5F9', "$\\mbfsansl$"),
  ('\uD5FA', "$\\mbfsansm$"),
  ('\uD5FB', "$\\mbfsansn$"),
  ('\uD5FC', "$\\mbfsanso$"),
  ('\uD5FD', "$\\mbfsansp$"),
  ('\uD5FE', "$\\mbfsansq$"),
  ('\uD5FF', "$\\mbfsansr$"),
  ('\uD600', "$\\mbfsanss$"),
  ('\uD601', "$\\mbfsanst$"),
  ('\uD602', "$\\mbfsansu$"),
  ('\uD603', "$\\mbfsansv$"),
  ('\uD604', "$\\mbfsansw$"),
  ('\uD605', "$\\mbfsansx$"),
  ('\uD606', "$\\mbfsansy$"),
  ('\uD607', "$\\mbfsansz$"),
  ('\uD608', "$\\mitsansA$"),
  ('\uD609', "$\\mitsansB$"),
  ('\uD60A', "$\\mitsansC$"),
  ('\uD60B', "$\\mitsansD$"),
  ('\uD60C', "$\\mitsansE$"),
  ('\uD60D', "$\\mitsansF$"),
  ('\uD60E', "$\\mitsansG$"),
  ('\uD60F', "$\\mitsansH$"),
  ('\uD610', "$\\mitsansI$"),
  ('\uD611', "$\\mitsansJ$"),
  ('\uD612', "$\\mitsansK$"),
  ('\uD613', "$\\mitsansL$"),
  ('\uD614', "$\\mitsansM$"),
  ('\uD615', "$\\mitsansN$"),
  ('\uD616', "$\\mitsansO$"),
  ('\uD617', "$\\mitsansP$"),
  ('\uD618', "$\\mitsansQ$"),
  ('\uD619', "$\\mitsansR$"),
  ('\uD61A', "$\\mitsansS$"),
  ('\uD61B', "$\\mitsansT$"),
  ('\uD61C', "$\\mitsansU$"),
  ('\uD61D', "$\\mitsansV$"),
  ('\uD61E', "$\\mitsansW$"),
  ('\uD61F', "$\\mitsansX$"),
  ('\uD620', "$\\mitsansY$"),
  ('\uD621', "$\\mitsansZ$"),
  ('\uD622', "$\\mitsansa$"),
  ('\uD623', "$\\mitsansb$"),
  ('\uD624', "$\\mitsansc$"),
  ('\uD625', "$\\mitsansd$"),
  ('\uD626', "$\\mitsanse$"),
  ('\uD627', "$\\mitsansf$"),
  ('\uD628', "$\\mitsansg$"),
  ('\uD629', "$\\mitsansh$"),
  ('\uD62A', "$\\mitsansi$"),
  ('\uD62B', "$\\mitsansj$"),
  ('\uD62C', "$\\mitsansk$"),
  ('\uD62D', "$\\mitsansl$"),
  ('\uD62E', "$\\mitsansm$"),
  ('\uD62F', "$\\mitsansn$"),
  ('\uD630', "$\\mitsanso$"),
  ('\uD631', "$\\mitsansp$"),
  ('\uD632', "$\\mitsansq$"),
  ('\uD633', "$\\mitsansr$"),
  ('\uD634', "$\\mitsanss$"),
  ('\uD635', "$\\mitsanst$"),
  ('\uD636', "$\\mitsansu$"),
  ('\uD637', "$\\mitsansv$"),
  ('\uD638', "$\\mitsansw$"),
  ('\uD639', "$\\mitsansx$"),
  ('\uD63A', "$\\mitsansy$"),
  ('\uD63B', "$\\mitsansz$"),
  ('\uD63C', "$\\mbfitsansA$"),
  ('\uD63D', "$\\mbfitsansB$"),
  ('\uD63E', "$\\mbfitsansC$"),
  ('\uD63F', "$\\mbfitsansD$"),
  ('\uD640', "$\\mbfitsansE$"),
  ('\uD641', "$\\mbfitsansF$"),
  ('\uD642', "$\\mbfitsansG$"),
  ('\uD643', "$\\mbfitsansH$"),
  ('\uD644', "$\\mbfitsansI$"),
  ('\uD645', "$\\mbfitsansJ$"),
  ('\uD646', "$\\mbfitsansK$"),
  ('\uD647', "$\\mbfitsansL$"),
  ('\uD648', "$\\mbfitsansM$"),
  ('\uD649', "$\\mbfitsansN$"),
  ('\uD64A', "$\\mbfitsansO$"),
  ('\uD64B', "$\\mbfitsansP$"),
  ('\uD64C', "$\\mbfitsansQ$"),
  ('\uD64D', "$\\mbfitsansR$"),
  ('\uD64E', "$\\mbfitsansS$"),
  ('\uD64F', "$\\mbfitsansT$"),
  ('\uD650', "$\\mbfitsansU$"),
  ('\uD651', "$\\mbfitsansV$"),
  ('\uD652', "$\\mbfitsansW$"),
  ('\uD653', "$\\mbfitsansX$"),
  ('\uD654', "$\\mbfitsansY$"),
  ('\uD655', "$\\mbfitsansZ$"),
  ('\uD656', "$\\mbfitsansa$"),
  ('\uD657', "$\\mbfitsansb$"),
  ('\uD658', "$\\mbfitsansc$"),
  ('\uD659', "$\\mbfitsansd$"),
  ('\uD65A', "$\\mbfitsanse$"),
  ('\uD65B', "$\\mbfitsansf$"),
  ('\uD65C', "$\\mbfitsansg$"),
  ('\uD65D', "$\\mbfitsansh$"),
  ('\uD65E', "$\\mbfitsansi$"),
  ('\uD65F', "$\\mbfitsansj$"),
  ('\uD660', "$\\mbfitsansk$"),
  ('\uD661', "$\\mbfitsansl$"),
  ('\uD662', "$\\mbfitsansm$"),
  ('\uD663', "$\\mbfitsansn$"),
  ('\uD664', "$\\mbfitsanso$"),
  ('\uD665', "$\\mbfitsansp$"),
  ('\uD666', "$\\mbfitsansq$"),
  ('\uD667', "$\\mbfitsansr$"),
  ('\uD668', "$\\mbfitsanss$"),
  ('\uD669', "$\\mbfitsanst$"),
  ('\uD66A', "$\\mbfitsansu$"),
  ('\uD66B', "$\\mbfitsansv$"),
  ('\uD66C', "$\\mbfitsansw$"),
  ('\uD66D', "$\\mbfitsansx$"),
  ('\uD66E', "$\\mbfitsansy$"),
  ('\uD66F', "$\\mbfitsansz$"),
  ('\uD670', "$\\mttA$"),
  ('\uD671', "$\\mttB$"),
  ('\uD672', "$\\mttC$"),
  ('\uD673', "$\\mttD$"),
  ('\uD674', "$\\mttE$"),
  ('\uD675', "$\\mttF$"),
  ('\uD676', "$\\mttG$"),
  ('\uD677', "$\\mttH$"),
  ('\uD678', "$\\mttI$"),
  ('\uD679', "$\\mttJ$"),
  ('\uD67A', "$\\mttK$"),
  ('\uD67B', "$\\mttL$"),
  ('\uD67C', "$\\mttM$"),
  ('\uD67D', "$\\mttN$"),
  ('\uD67E', "$\\mttO$"),
  ('\uD67F', "$\\mttP$"),
  ('\uD680', "$\\mttQ$"),
  ('\uD681', "$\\mttR$"),
  ('\uD682', "$\\mttS$"),
  ('\uD683', "$\\mttT$"),
  ('\uD684', "$\\mttU$"),
  ('\uD685', "$\\mttV$"),
  ('\uD686', "$\\mttW$"),
  ('\uD687', "$\\mttX$"),
  ('\uD688', "$\\mttY$"),
  ('\uD689', "$\\mttZ$"),
  ('\uD68A', "$\\mtta$"),
  ('\uD68B', "$\\mttb$"),
  ('\uD68C', "$\\mttc$"),
  ('\uD68D', "$\\mttd$"),
  ('\uD68E', "$\\mtte$"),
  ('\uD68F', "$\\mttf$"),
  ('\uD690', "$\\mttg$"),
  ('\uD691', "$\\mtth$"),
  ('\uD692', "$\\mtti$"),
  ('\uD693', "$\\mttj$"),
  ('\uD694', "$\\mttk$"),
  ('\uD695', "$\\mttl$"),
  ('\uD696', "$\\mttm$"),
  ('\uD697', "$\\mttn$"),
  ('\uD698', "$\\mtto$"),
  ('\uD699', "$\\mttp$"),
  ('\uD69A', "$\\mttq$"),
  ('\uD69B', "$\\mttr$"),
  ('\uD69C', "$\\mtts$"),
  ('\uD69D', "$\\mttt$"),
  ('\uD69E', "$\\mttu$"),
  ('\uD69F', "$\\mttv$"),
  ('\uD6A0', "$\\mttw$"),
  ('\uD6A1', "$\\mttx$"),
  ('\uD6A2', "$\\mtty$"),
  ('\uD6A3', "$\\mttz$"),
  ('\uD6A8', "$\\mbfAlpha$"),
  ('\uD6A9', "$\\mbfBeta$"),
  ('\uD6AA', "$\\mbfGamma$"),
  ('\uD6AB', "$\\mbfDelta$"),
  ('\uD6AC', "$\\mbfEpsilon$"),
  ('\uD6AD', "$\\mbfZeta$"),
  ('\uD6AE', "$\\mbfEta$"),
  ('\uD6AF', "$\\mbfTheta$"),
  ('\uD6B0', "$\\mbfIota$"),
  ('\uD6B1', "$\\mbfKappa$"),
  ('\uD6B2', "$\\mbfLambda$"),
  ('\uD6B3', "$\\mbfMu$"),
  ('\uD6B4', "$\\mbfNu$"),
  ('\uD6B5', "$\\mbfXi$"),
  ('\uD6B6', "$\\mbfOmicron$"),
  ('\uD6B7', "$\\mbfPi$"),
  ('\uD6B8', "$\\mbfRho$"),
  ('\uD6B9', "$\\mathbf\x7b\\vartheta\x7d$"),
  ('\uD6BA', "$\\mbfSigma$"),
  ('\uD6BB', "$\\mbfTau$"),
  ('\uD6BC', "$\\mbfUpsilon$"),
  ('\uD6BD', "$\\mbfPhi$"),
  ('\uD6BE', "$\\mbfChi$"),
  ('\uD6BF', "$\\mbfPsi$"),
  ('\uD6C0', "$\\mbfOmega$"),
  ('\uD6C1', "$\\mbfnabla$"),
  ('\uD6C2', "$\\mbfalpha$"),
  ('\uD6C3', "$\\mbfbeta$"),
  ('\uD6C4', "$\\mbfgamma$"),
  ('\uD6C5', "$\\mbfdelta$"),
  ('\uD6C6', "$\\mbfepsilon$"),
  ('\uD6C7', "$\\mbfzeta$"),
  ('\uD6C8', "$\\mbfeta$"),
  ('\uD6C9', "$\\mbftheta$"),
  ('\uD6CA', "$\\mbfiota$"),
  ('\uD6CB', "$\\mbfkappa$"),
  ('\uD6CC', "$\\mbflambda$"),
  ('\uD6CD', "$\\mbfmu$"),
  ('\uD6CE', "$\\mbfnu$"),
  ('\uD6CF', "$\\mbfxi$"),
  ('\uD6D0', "$\\mbfomicron$"),
  ('\uD6D1', "$\\mbfpi$"),
  ('\uD6D2', "$\\mbfrho$"),
  ('\uD6D3', "$\\mbfvarsigma$"),
  ('\uD6D4', "$\\mbfsigma$"),
  ('\uD6D5', "$\\mbftau$"),
  ('\uD6D6', "$\\mbfupsilon$"),
  ('\uD6D7', "$\\mbfvarphi$"),
  ('\uD6D8', "$\\mbfchi$"),
  ('\uD6D9', "$\\mbfpsi$"),
  ('\uD6DA', "$\\mbfomega$"),
  ('\uD6DB', "$\\mbfpartial$"),
  ('\uD6DC', "$\\mbfvarepsilon$"),
  ('\uD6DD', "$\\mathbf\x7b\\vartheta\x7d$"),
  ('\uD6DE', "$\\mathbf\x7b\\varkappa\x7d$"),
  ('\uD6DF', "$\\mathbf\x7b\\phi\x7d$"),
  ('\uD6E0', "$\\mathbf\x7b\\varrho\x7d$"),
  ('\uD6E1', "$\\mathbf\x7b\\varpi\x7d$"),
  ('\uD6E2', "$\\mitAlpha$"),
  ('\uD6E3', "$\\mitBeta$"),
  ('\uD6E4', "$\\mitGamma$"),
  ('\uD6E5', "$\\mitDelta$"),
  ('\uD6E6', "$\\mitEpsilon$"),
  ('\uD6E7', "$\\mitZeta$"),
  ('\uD6E8', "$\\mitEta$"),
  ('\uD6E9', "$\\mitTheta$"),
  ('\uD6EA', "$\\mitIota$"),
  ('\uD6EB', "$\\mitKappa$"),
  ('\uD6EC', "$\\mitLambda$"),
  ('\uD6ED', "$\\mitMu$"),
  ('\uD6EE', "$\\mitNu$"),
  ('\uD6EF', "$\\mitXi$"),
  ('\uD6F0', "$\\mitOmicron$"),
  ('\uD6F1', "$\\mitPi$"),
  ('\uD6F2', "$\\mitRho$"),
  ('\uD6F3', "$\\mathmit\x7b\\vartheta\x7d$"),
  ('\uD6F4', "$\\mitSigma$"),
  ('\uD6F5', "$\\mitTau$"),
  ('\uD6F6', "$\\mitUpsilon$"),
  ('\uD6F7', "$\\mitPhi$"),
  ('\uD6F8', "$\\mitChi$"),
  ('\uD6F9', "$\\mitPsi$"),
  ('\uD6FA', "$\\mitOmega$"),
  ('\uD6FB', "$\\mitnabla$"),
  ('\uD6FC', "$\\mitalpha$"),
  ('\uD6FD', "$\\mitbeta$"),
  ('\uD6FE', "$\\mitgamma$"),
  ('\uD6FF', "$\\mitdelta$"),
  ('\uD700', "$\\mitepsilon$"),
  ('\uD701', "$\\mitzeta$"),
  ('\uD702', "$\\miteta$"),
  ('\uD703', "$\\mittheta$"),
  ('\uD704', "$\\mitiota$"),
  ('\uD705', "$\\mitkappa$"),
  ('\uD706', "$\\mitlambda$"),
  ('\uD707', "$\\mitmu$"),
  ('\uD708', "$\\mitnu$"),
  ('\uD709', "$\\mitxi$"),
  ('\uD70A', "$\\mitomicron$"),
  ('\uD70B', "$\\mitpi$"),
  ('\uD70C', "$\\mitrho$"),
  ('\uD70D', "$\\mitvarsigma$"),
  ('\uD70E', "$\\mitsigma$"),
  ('\uD70F', "$\\mittau$"),
  ('\uD710', "$\\mitupsilon$"),
  ('\uD711', "$\\mitphi$"),
  ('\uD712', "$\\mitchi$"),
  ('\uD713', "$\\mitpsi$"),
  ('\uD714', "$\\mitomega$"),
  ('\uD715', "$\\mitpartial$"),
  ('\uD716', "$\\mitvarepsilon$"),
  ('\uD717', "$\\mathmit\x7b\\vartheta\x7d$"),
  ('\uD718', "$\\mathmit\x7b\\varkappa\x7d$"),
  ('\uD719', "$\\mathmit\x7b\\phi\x7d$"),
  ('\uD71A', "$\\mathmit\x7b\\varrho\x7d$"),
  ('\uD71B', "$\\mathmit\x7b\\varpi\x7d$"),
  ('\uD71C', "$\\mbfitAlpha$"),
  ('\uD71D', "$\\mbfitBeta$"),
  ('\uD71E', "$\\mbfitGamma$"),
  ('\uD71F', "$\\mbfitDelta$"),
  ('\uD720', "$\\mbfitEpsilon$"),
  ('\uD721', "$\\mbfitZeta$"),
  ('\uD722', "$\\mbfitEta$"),
  ('\uD723', "$\\mbfitTheta$"),
  ('\uD724', "$\\mbfitIota$"),
  ('\uD725', "$\\mbfitKappa$"),
  ('\uD726', "$\\mbfitLambda$"),
  ('\uD727', "$\\mbfitMu$"),
  ('\uD728', "$\\mbfitNu$"),
  ('\uD729', "$\\mbfitXi$"),
  ('\uD72A', "$\\mbfitOmicron$"),
  ('\uD72B', "$\\mbfitPi$"),
  ('\uD72C', "$\\mbfitRho$"),
  ('\uD72D', "$\\mathbit\x7bO\x7d$"),
  ('\uD72E', "$\\mbfitSigma$"),
  ('\uD72F', "$\\mbfitTau$"),
  ('\uD730', "$\\mbfitUpsilon$"),
  ('\uD731', "$\\mbfitPhi$"),
  ('\uD732', "$\\mbfitChi$"),
  ('\uD733', "$\\mbfitPsi$"),
  ('\uD734', "$\\mbfitOmega$"),
  ('\uD735', "$\\mbfitnabla$"),
  ('\uD736', "$\\mbfitalpha$"),
  ('\uD737', "$\\mbfitbeta$"),
  ('\uD738', "$\\mbfitgamma$"),
  ('\uD739', "$\\mbfitdelta$"),
  ('\uD73A', "$\\mbfitepsilon$"),
  ('\uD73B', "$\\mbfitzeta$"),
  ('\uD73C', "$\\mbfiteta$"),
  ('\uD73D', "$\\mbfittheta$"),
  ('\uD73E', "$\\mbfitiota$"),
  ('\uD73F', "$\\mbfitkappa$"),
  ('\uD740', "$\\mbfitlambda$"),
  ('\uD741', "$\\mbfitmu$"),
  ('\uD742', "$\\mbfitnu$"),
  ('\uD743', "$\\mbfitxi$"),
  ('\uD744', "$\\mbfitomicron$"),
  ('\uD745', "$\\mbfitpi$"),
  ('\uD746', "$\\mbfitrho$"),
  ('\uD747', "$\\mbfitvarsigma$"),
  ('\uD748', "$\\mbfitsigma$"),
  ('\uD749', "$\\mbfittau$"),
  ('\uD74A', "$\\mbfitupsilon$"),
  ('\uD74B', "$\\mbfitphi$"),
  ('\uD74C', "$\\mbfitchi$"),
  ('\uD74D', "$\\mbfitpsi$"),
  ('\uD74E', "$\\mbfitomega$"),
  ('\uD74F', "$\\mbfitpartial$"),
  ('\uD750', "$\\mbfitvarepsilon$"),
  ('\uD751', "$\\mathbit\x7b\\vartheta\x7d$"),
  ('\uD752', "$\\mathbit\x7b\\varkappa\x7d$"),
  ('\uD753', "$\\mathbit\x7b\\phi\x7d$"),
  ('\uD754', "$\\mathbit\x7b\\varrho\x7d$"),
  ('\uD755', "$\\mathbit\x7b\\varpi\x7d$"),
  ('\uD756', "$\\mbfsansAlpha$"),
  ('\uD757', "$\\mbfsansBeta$"),
  ('\uD758', "$\\mbfsansGamma$"),
  ('\uD759', "$\\mbfsansDelta$"),
  ('\uD75A', "$\\mbfsansEpsilon$"),
  ('\uD75B', "$\\mbfsansZeta$"),
  ('\uD75C', "$\\mbfsansEta$"),
  ('\uD75D', "$\\mbfsansTheta$"),
  ('\uD75E', "$\\mbfsansIota$"),
  ('\uD75F', "$\\mbfsansKappa$"),
  ('\uD760', "$\\mbfsansLambda$"),
  ('\uD761', "$\\mbfsansMu$"),
  ('\uD762', "$\\mbfsansNu$"),
  ('\uD763', "$\\mbfsansXi$"),
  ('\uD764', "$\\mbfsansOmicron$"),
  ('\uD765', "$\\mbfsansPi$"),
  ('\uD766', "$\\mbfsansRho$"),
  ('\uD767', "$\\mathsfbf\x7b\\vartheta\x7d$"),
  ('\uD768', "$\\mbfsansSigma$"),
  ('\uD769', "$\\mbfsansTau$"),
  ('\uD76A', "$\\mbfsansUpsilon$"),
  ('\uD76B', "$\\mbfsansPhi$"),
  ('\uD76C', "$\\mbfsansChi$"),
  ('\uD76D', "$\\mbfsansPsi$"),
  ('\uD76E', "$\\mbfsansOmega$"),
  ('\uD76F', "$\\mbfsansnabla$"),
  ('\uD770', "$\\mbfsansalpha$"),
  ('\uD771', "$\\mbfsansbeta$"),
  ('\uD772', "$\\mbfsansgamma$"),
  ('\uD773', "$\\mbfsansdelta$"),
  ('\uD774', "$\\mbfsansepsilon$"),
  ('\uD775', "$\\mbfsanszeta$"),
  ('\uD776', "$\\mbfsanseta$"),
  ('\uD777', "$\\mbfsanstheta$"),
  ('\uD778', "$\\mbfsansiota$"),
  ('\uD779', "$\\mbfsanskappa$"),
  ('\uD77A', "$\\mbfsanslambda$"),
  ('\uD77B', "$\\mbfsansmu$"),
  ('\uD77C', "$\\mbfsansnu$"),
  ('\uD77D', "$\\mbfsansxi$"),
  ('\uD77E', "$\\mbfsansomicron$"),
  ('\uD77F', "$\\mbfsanspi$"),
  ('\uD780', "$\\mbfsansrho$"),
  ('\uD781', "$\\mbfsansvarsigma$"),
  ('\uD782', "$\\mbfsanssigma$"),
  ('\uD783', "$\\mbfsanstau$"),
  ('\uD784', "$\\mbfsansupsilon$"),
  ('\uD785', "$\\mbfsansphi$"),
  ('\uD786', "$\\mbfsanschi$"),
  ('\uD787', "$\\mbfsanspsi$"),
  ('\uD788', "$\\mbfsansomega$"),
  ('\uD789', "$\\mbfsanspartial$"),
  ('\uD78A', "$\\mbfsansvarepsilon$"),
  ('\uD78B', "$\\mathsfbf\x7b\\vartheta\x7d$"),
  ('\uD78C', "$\\mathsfbf\x7b\\varkappa\x7d$"),
  ('\uD78D', "$\\mathsfbf\x7b\\phi\x7d$"),
  ('\uD78E', "$\\mathsfbf\x7b\\varrho\x7d$"),
  ('\uD78F', "$\\mathsfbf\x7b\\varpi\x7d$"),
  ('\uD790', "$\\mbfitsansAlpha$"),
  ('\uD791', "$\\mbfitsansBeta$"),
  ('\uD792', "$\\mbfitsansGamma$"),
  ('\uD793', "$\\mbfitsansDelta$"),
  ('\uD794', "$\\mbfitsansEpsilon$"),
  ('\uD795', "$\\mbfitsansZeta$"),
  ('\uD796', "$\\mbfitsansEta$"),
  ('\uD797', "$\\mbfitsansTheta$"),
  ('\uD798', "$\\mbfitsansIota$"),
  ('\uD799', "$\\mbfitsansKappa$"),
  ('\uD79A', "$\\mbfitsansLambda$"),
  ('\uD79B', "$\\mbfitsansMu$"),
  ('\uD79C', "$\\mbfitsansNu$"),
  ('\uD79D', "$\\mbfitsansXi$"),
  ('\uD79E', "$\\mbfitsansOmicron$"),
  ('\uD79F', "$\\mbfitsansPi$"),
  ('\uD7A0', "$\\mbfitsansRho$"),
  ('\uD7A1', "$\\mathsfbfsl\x7b\\vartheta\x7d$"),
  ('\uD7A2', "$\\mbfitsansSigma$"),
  ('\uD7A3', "$\\mbfitsansTau$"),
  ('\uD7A4', "$\\mbfitsansUpsilon$"),
  ('\uD7A5', "$\\mbfitsansPhi$"),
  ('\uD7A6', "$\\mbfitsansChi$"),
  ('\uD7A7', "$\\mbfitsansPsi$"),
  ('\uD7A8', "$\\mbfitsansOmega$"),
  ('\uD7A9', "$\\mbfitsansnabla$"),
  ('\uD7AA', "$\\mbfitsansalpha$"),
  ('\uD7AB', "$\\mbfitsansbeta$"),
  ('\uD7AC', "$\\mbfitsansgamma$"),
  ('\uD7AD', "$\\mbfitsansdelta$"),
  ('\uD7AE', "$\\mbfitsansepsilon$"),
  ('\uD7AF', "$\\mbfitsanszeta$"),
  ('\uD7B0', "$\\mbfitsanseta$"),
  ('\uD7B1', "$\\mbfitsanstheta$"),
  ('\uD7B2', "$\\mbfitsansiota$"),
  ('\uD7B3', "$\\mbfitsanskappa$"),
  ('\uD7B4', "$\\mbfitsanslambda$"),
  ('\uD7B5', "$\\mbfitsansmu$"),
  ('\uD7B6', "$\\mbfitsansnu$"),
  ('\uD7B7', "$\\mbfitsansxi$"),
  ('\uD7B8', "$\\mbfitsansomicron$"),
  ('\uD7B9', "$\\mbfitsanspi$"),
  ('\uD7BA', "$\\mbfitsansrho$"),
  ('\uD7BB', "$\\mbfitsansvarsigma$"),
  ('\uD7BC', "$\\mbfitsanssigma$"),
  ('\uD7BD', "$\\mbfitsanstau$"),
  ('\uD7BE', "$\\mbfitsansupsilon$"),
  ('\uD7BF', "$\\mbfitsansphi$"),
  ('\uD7C0', "$\\mbfitsanschi$"),
  ('\uD7C1', "$\\mbfitsanspsi$"),
  ('\uD7C2', "$\\mbfitsansomega$"),
  ('\uD7C3', "$\\mbfitsanspartial$"),
  ('\uD7C4', "$\\mbfitsansvarepsilon$"),
  ('\uD7C5', "$\\mathsfbfsl\x7b\\vartheta\x7d$"),
  ('\uD7C6', "$\\mathsfbfsl\x7b\\varkappa\x7d$"),
  ('\uD7C7', "$\\mathsfbfsl\x7b\\phi\x7d$"),
  ('\uD7C8', "$\\mathsfbfsl\x7b\\varrho\x7d$"),
  ('\uD7C9', "$\\mathsfbfsl\x7b\\varpi\x7d$"),
  ('\uD7CE', "$\\mbfzero$"),
  ('\uD7CF', "$\\mbfone$"),
  ('\uD7D0', "$\\mbftwo$"),
  ('\uD7D1', "$\\mbfthree$"),
  ('\uD7D2', "$\\mbffour$"),
  ('\uD7D3', "$\\mbffive$"),
  ('\uD7D4', "$\\mbfsix$"),
  ('\uD7D5', "$\\mbfseven$"),
  ('\uD7D6', "$\\mbfeight$"),
  ('\uD7D7', "$\\mbfnine$"),
  ('\uD7D8', "$\\Bbbzero$"),
  ('\uD7D9', "$\\Bbbone$"),
  ('\uD7DA', "$\\Bbbtwo$"),
  ('\uD7DB', "$\\Bbbthree$"),
  ('\uD7DC', "$\\Bbbfour$"),
  ('\uD7DD', "$\\Bbbfive$"),
  ('\uD7DE', "$\\Bbbsix$"),
  ('\uD7DF', "$\\Bbbseven$"),
  ('\uD7E0', "$\\Bbbeight$"),
  ('\uD7E1', "$\\Bbbnine$"),
  ('\uD7E2', "$\\msanszero$"),
  ('\uD7E3', "$\\msansone$"),
  ('\uD7E4', "$\\msanstwo$"),
  ('\uD7E5', "$\\msansthree$"),
  ('\uD7E6', "$\\msansfour$"),
  ('\uD7E7', "$\\msansfive$"),
  ('\uD7E8', "$\\msanssix$"),
  ('\uD7E9', "$\\msansseven$"),
  ('\uD7EA', "$\\msanseight$"),
  ('\uD7EB', "$\\msansnine$"),
  ('\uD7EC', "$\\mbfsanszero$"),
  ('\uD7ED', "$\\mbfsansone$"),
  ('\uD7EE', "$\\mbfsanstwo$"),
  ('\uD7EF', "$\\mbfsansthree$"),
  ('\uD7F0', "$\\mbfsansfour$"),
  ('\uD7F1', "$\\mbfsansfive$"),
  ('\uD7F2', "$\\mbfsanssix$"),
  ('\uD7F3', "$\\mbfsansseven$"),
  ('\uD7F4', "$\\mbfsanseight$"),
  ('\uD7F5', "$\\mbfsansnine$"),
  ('\uD7F6', "$\\mttzero$"),
  ('\uD7F7', "$\\mttone$"),
  ('\uD7F8', "$\\mtttwo$"),
  ('\uD7F9', "$\\mttthree$"),
  ('\uD7FA', "$\\mttfour$"),
  ('\uD7FB', "$\\mttfive$"),
  ('\uD7FC', "$\\mttsix$"),
  ('\uD7FD', "$\\mttseven$"),
  ('\uD7FE', "$\\mtteight$"),
  ('\uD7FF', "$\\mttnine$")]

/-- The per-code-point replacement of `sanitizeBibtexField`
(src/pid2bib.py line 2616): `uni2tex.get(c, c)`. -/
def sanitizeStep (c : Char) : String :=
  (uni2tex.lookup c).getD (String.singleton c)

/-- `sanitizeBibtexField` of src/pid2bib.py (lines 244-2616):
the join over the text of the per-code-point replacement `uni2tex.get(c, c)`. -/
def sanitizeBibtexField (text : String) : String :=
  String.join (text.data.map sanitizeStep)

/-- `createBibtexContent` of src/pid2bib.py (lines 2619-2675), rendered as
the concatenation of the successive `result.write` calls of the source, in
their order. -/
def createBibtexContent (reference : Reference) (pmid : String) : String :=
  "% " ++ pmid ++ "\n" ++
  "@Article\x7bpmid" ++ pmid ++ ",\n" ++
  ("   title = \"\x7b" ++ sanitizeBibtexField reference.title ++ "\x7d\",\n") ++
  appendFormattedField "author" (sanitizeBibtexField (authorsText reference)) ++
  appendFormattedField "journal" (sanitizeBibtexField (theJournal reference)) ++
  appendFormattedField "volume" reference.volume ++
  appendFormattedField "number" reference.issue ++
  appendFormattedField "pages" (pagesText reference) ++
  appendFormattedField "year" reference.pbyear ++
  appendFormattedField "month" reference.pbmonth ++
  (if reference.issn != "" then appendFormattedField "issn" reference.issn
   else "") ++
  (if reference.copyright != "" then
    appendFormattedField "copyright" (sanitizeBibtexField reference.copyright)
   else "") ++
  ("   abstract = \"\x7b" ++ sanitizeBibtexField reference.abstract ++ "\x7d\",\n") ++
  ("   note = \x7b" ++ notesText reference pmid ++ "\x7d") ++
  "\n\x7d\n"

/-- The `str.translate` table of `sanitizeFileName` (src/pid2bib.py lines
218-225): six characters deleted, `/` replaced by a space, everything else
kept. -/
def fileNameCharMap (c : Char) : Option Char :=
  if c = '\x7b' then none
  else if c = '\x7d' then none
  else if c = '[' then none
  else if c = ']' then none
  else if c = '"' then none
  else if c = '/' then some ' '
  else if c = '?' then none
  else some c

/-- The `result` of `sanitizeFileName` before the trailing-dot check:
`text.translate({...})`. -/
def translateFileName (text : String) : String :=
  ⟨text.data.filterMap fileNameCharMap⟩

/-- `sanitizeFileName` of src/pid2bib.py (lines 211-229).  The source tests
whether the last character of `result` is a dot, with no emptiness guard,
indexing position -1; an empty `result` therefore raises
`IndexError`; that is modelled by the error branch. -/
def sanitizeFileName (text : String) : Except String String :=
  let result := translateFileName text
  match result.data.getLast? with
  | none => Except.error "IndexError: string index out of range"
  | some c => if c = '.' then Except.ok ⟨result.data.dropLast⟩ else Except.ok result

/-- The character set of the lstrip call of `getTitle` (argument
`title = ` followed by an opening brace): lstrip takes
a set of characters, not a prefix. -/
def lstripSet : List Char := "title = \x7b".data

/-- The character set of the rstrip call of `getTitle` (closing brace,
comma, newline). -/
def rstripSet : List Char := "\x7d,\n".data

/-- Python `str.lstrip(chars)` on a character list: drop leading characters
that belong to the set. -/
def lstripChars (cs : List Char) : List Char → List Char
  | [] => []
  | c :: rest => if c ∈ cs then lstripChars cs rest else c :: rest

/-- Python `str.rstrip(chars)` on a character list: drop trailing characters
that belong to the set. -/
def rstripChars (cs : List Char) (l : List Char) : List Char :=
  (lstripChars cs l.reverse).reverse

/-- The literal part of the regular expression of `getTitle`. -/
def titlePattern : List Char := "title = ".data

/-- Matching the tail of the regular expression `title = (.*?)\n` at a fixed
position: `.` does not match a newline, and the lazy `.*?` followed by `\n`
takes exactly the characters up to and including the first newline; if no
newline follows, there is no match at this position. -/
def takeLine : List Char → Option (List Char)
  | [] => none
  | c :: rest =>
    if c = '\n' then some [c] else (takeLine rest).map (fun l => c :: l)

/-- The search of `getTitle`, a regular expression matching the literal
`title = `, a lazy run of non-newline characters, then a newline: try each
start position from the
left; at the first position where the literal `title = ` matches and a
newline follows on the same line, return the whole match (group 0). -/
def searchTitle : List Char → Option (List Char)
  | [] => none
  | c :: rest =>
    if titlePattern.isPrefixOf (c :: rest) then
      match takeLine ((c :: rest).drop titlePattern.length) with
      | some l => some (titlePattern ++ l)
      | none => searchTitle rest
    else searchTitle rest

/-- `getTitle` of src/pid2bib.py (lines 2696-2708): regex search, `.group()`
(raises `AttributeError` when the search fails), the lstrip call,
rstrip, then removal of every brace via `translate`. -/
def getTitle (bibtex_content : String) : Except String String :=
  match searchTitle bibtex_content.data with
  | none => Except.error "AttributeError: NoneType object has no attribute lstrip"
  | some g =>
    Except.ok
      ⟨(rstripChars rstripSet (lstripChars lstripSet g)).filter
        (fun c => !(c == '\x7b' || c == '\x7d'))⟩

/-- A record whose `Journal` node is present but has no `JournalIssue`
child; everything else is well-formed. -/
def xmlJournalNoIssue : XML :=
  .elem "PubmedArticleSet" [] "" [
    .elem "PubmedArticle" [] "" [
      .elem "MedlineCitation" [] "" [
        .elem "Article" [] "" [
          .elem "ArticleTitle" [] "A Study" [],
          .elem "Journal" [] "" [
            .elem "Title" [] "Nature" []],
          .elem "AuthorList" [] "" []]],
      .elem "PubmedData" [] "" [
        .elem "ArticleIdList" [] "" []]]]

/-- A record with a complete `Journal` block but no `AuthorList` node. -/
def xmlNoAuthorList : XML :=
  .elem "PubmedArticleSet" [] "" [
    .elem "PubmedArticle" [] "" [
      .elem "MedlineCitation" [] "" [
        .elem "Article" [] "" [
          .elem "ArticleTitle" [] "A Study" [],
          .elem "Journal" [] "" [
            .elem "Title" [] "Nature" [],
            .elem "JournalIssue" [] "" []]]],
      .elem "PubmedData" [] "" [
        .elem "ArticleIdList" [] "" []]]]

/-- A maximally sparse record: `Article` has no `ArticleTitle`, `Abstract`,
`Journal` or `Pagination` at all, and the `AuthorList` is empty. -/
def xmlSparse : XML :=
  .elem "PubmedArticleSet" [] "" [
    .elem "PubmedArticle" [] "" [
      .elem "MedlineCitation" [] "" [
        .elem "Article" [] "" [
          .elem "AuthorList" [] "" []]],
      .elem "PubmedData" [] "" [
        .elem "ArticleIdList" [] "" []]]]

/-- A record whose `JournalIssue` is present but empty (no `Volume`, `Issue`
or `PubDate`), whose author has no `AffiliationInfo`, and with no
`Abstract` or `Pagination`. -/
def xmlSparseIssue : XML :=
  .elem "PubmedArticleSet" [] "" [
    .elem "PubmedArticle" [] "" [
      .elem "MedlineCitation" [] "" [
        .elem "Article" [] "" [
          .elem "Journal" [] "" [
            .elem "JournalIssue" [] "" []],
          .elem "AuthorList" [] "" [
            .elem "Author" [] "" [
              .elem "LastName" [] "Smith" [],
              .elem "Initials" [] "J" []]]]],
      .elem "PubmedData" [] "" [
        .elem "ArticleIdList" [] "" []]]]

/-- A well-formed record carrying a DOI identifier. -/
def xmlWithDoi : XML :=
  .elem "PubmedArticleSet" [] "" [
    .elem "PubmedArticle" [] "" [
      .elem "MedlineCitation" [] "" [
        .elem "Article" [] "" [
          .elem "ArticleTitle" [] "A Study" [],
          .elem "Journal" [] "" [
            .elem "Title" [] "Nature" [],
            .elem "JournalIssue" [] "" [
              .elem "Volume" [] "12" [],
              .elem "PubDate" [] "" [
                .elem "Year" [] "2019" []]]],
          .elem "AuthorList" [] "" [
            .elem "Author" [] "" [
              .elem "LastName" [] "Smith" [],
              .elem "ForeName" [] "Jane" [],
              .elem "Initials" [] "J" []]]]],
      .elem "PubmedData" [] "" [
        .elem "ArticleIdList" [] "" [
          .elem "ArticleId" [("IdType", "pubmed")] "31726262" [],
          .elem "ArticleId" [("IdType", "doi")] "10.1021/acs.jced.5b00684" []]]]]

/-- The `Reference` that `parseXML` extracts from `xmlWithDoi`. -/
def refWithDoi : Reference :=
  { pmid := "31726262"
    title := "A Study"
    authors := [{ lastName := "Smith", foreName := "Jane", initials := "J" }]
    journal := "Nature"
    volume := "12"
    doi := "10.1021/acs.jced.5b00684"
    pbyear := "2019"
    article_url := "https://doi.org/10.1021/acs.jced.5b00684" }

/-- A reference with an end page but no start page (as extraction produces
from a `Pagination` node holding only `EndPage`). -/
def refPagesOnlyEnd : Reference := { pmid := "1", endPage := "5" }

/-- A reference with non-empty `issn` and `copyright`. -/
def refFull : Reference := { pmid := "1", issn := "1234-5678", copyright := "c" }

/-- A reference whose single author has an accented last name. -/
def refAuthorAccent : Reference :=
  { pmid := "1", authors := [{ lastName := "L\u00E9", initials := "J" }] }

/-- A reference with no authors. -/
def refNoAuthors : Reference := { pmid := "1" }

/-- Helper: a successful `parseArticle` returns a record whose `doi` and
`article_url` fields are exactly the values passed in. -/
theorem parseArticle_spec (pmid doi article_url : String) (article : XML)
    (ref : Reference) (h : parseArticle pmid doi article_url article = Except.ok ref) :
    ref.doi = doi ∧ ref.article_url = article_url := by
  simp only [parseArticle] at h
  split at h
  · exact Except.noConfusion h
  · split at h
    · exact Except.noConfusion h
    · injection h with h
      subst h
      exact ⟨rfl, rfl⟩

/-- Helper: `String.join` distributes over list concatenation. -/
theorem join_append_str (l₁ l₂ : List String) :
    String.join (l₁ ++ l₂) = String.join l₁ ++ String.join l₂ := by
  apply String.ext
  simp [String.join_eq, String.data_append, List.map_append, List.flatten_append]

/-- Helper: the escaper is a homomorphism for string concatenation. -/
theorem sanitizeBibtexField_append (s t : String) :
    sanitizeBibtexField (s ++ t) =
      sanitizeBibtexField s ++ sanitizeBibtexField t := by
  simp only [sanitizeBibtexField, String.data_append, List.map_append, join_append_str]

/-- Helper: the escaper on a one-code-point string is the table step. -/
theorem sanitizeBibtexField_singleton (c : Char) :
    sanitizeBibtexField (String.singleton c) = sanitizeStep c := by
  apply String.ext
  simp [sanitizeBibtexField, String.singleton, String.join_eq]

/-- Helper: a list is a prefix of itself followed by anything. -/
theorem isPrefixOf_append_self (p x : List Char) : p.isPrefixOf (p ++ x) = true := by
  induction p with
  | nil => simp [List.isPrefixOf]
  | cons c cs ih => simp [List.isPrefixOf, ih]

/-- Helper: `takeLine` takes exactly through the first newline. -/
theorem takeLine_before_newline (l r : List Char) (hl : '\n' ∉ l) :
    takeLine (l ++ '\n' :: r) = some (l ++ ['\n']) := by
  induction l with
  | nil => simp [takeLine]
  | cons c t ih =>
    have hc : c ≠ '\n' := fun hx => hl (hx ▸ List.mem_cons_self c t)
    have ht : '\n' ∉ t := fun hx => hl (List.mem_cons_of_mem c hx)
    simp only [List.cons_append, takeLine, if_neg hc, List.append_eq, ih ht]
    rfl

/-- Helper: lstrip over a set removes a prefix of set members and stops at
the first character outside the set. -/
theorem lstripChars_strip (cs p l : List Char) (hp : ∀ c ∈ p, c ∈ cs)
    (hl : ∀ c, l.head? = some c → c ∉ cs) : lstripChars cs (p ++ l) = l := by
  induction p with
  | nil =>
    cases l with
    | nil => rfl
    | cons c t =>
      have : c ∉ cs := hl c rfl
      simp [lstripChars, this]
  | cons c t ih =>
    have hc : c ∈ cs := hp c (List.mem_cons_self c t)
    simp only [List.cons_append, lstripChars, if_pos hc]
    exact ih (fun d hd => hp d (List.mem_cons_of_mem c hd))

/-- Helper: the regular-expression search succeeds at position zero when the
text begins with the literal pattern and a newline follows. -/
theorem searchTitle_at_start (x l : List Char) (hx : takeLine x = some l) :
    searchTitle (titlePattern ++ x) = some (titlePattern ++ l) := by
  rw [show titlePattern ++ x = 't' :: ("itle = ".data ++ x) from rfl]
  rw [searchTitle]
  rw [show ('t' :: ("itle = ".data ++ x)) = titlePattern ++ x from rfl]
  rw [isPrefixOf_append_self]
  have hdrop : takeLine ((titlePattern ++ x).drop titlePattern.length) = some l := by
    rw [show titlePattern.length = 8 from rfl]
    rw [show (titlePattern ++ x).drop 8 = x from rfl]
    exact hx
  simp only [hdrop, if_true]

/-- Helper: `getTitle` after a successful search is strip-strip-filter. -/
theorem getTitle_of_search (s : String) (g : List Char)
    (h : searchTitle s.data = some g) :
    getTitle s = Except.ok
      ⟨(rstripChars rstripSet (lstripChars lstripSet g)).filter
        (fun c => !(c == '\x7b' || c == '\x7d'))⟩ := by
  unfold getTitle
  rw [h]

/-- C1: the claim states that when an optional nested node is absent — in
particular `JournalIssue` under `Journal`, or `AuthorList` under `Article` —
`parseXML` returns a `Reference` with the corresponding fields empty rather
than raising.  Counterexample: on a record whose `Journal` lacks a
`JournalIssue` child, and on a record lacking `AuthorList`, `parseXML`
raises (`AttributeError` resp. `TypeError`) instead of succeeding. -/
theorem C1_counterexample :
    parseXML "1" xmlJournalNoIssue = Except.error attrErr ∧
    parseXML "1" xmlNoAuthorList = Except.error iterErr := ⟨rfl, rfl⟩

/-- C1 amended: defensive descent yields empty fields for the guarded
optional nodes (title, abstract, copyright, the whole `Journal` node,
`Volume`, `Issue`, `PubDate`, pagination, per-author nodes), as the two
successful sparse extractions show; but absence of `JournalIssue` under a
present `Journal`, or absence of `AuthorList`, makes `parseXML` raise
(`AttributeError` resp. `TypeError`) — the policy is not uniform. -/
theorem C1_amended :
    parseXML "1" xmlJournalNoIssue = Except.error attrErr ∧
    parseXML "1" xmlNoAuthorList = Except.error iterErr ∧
    parseXML "1" xmlSparse =
      Except.ok { pmid := "1", article_url := "https://pubmed.ncbi.nlm.nih.gov/1/" } ∧
    parseXML "1" xmlSparseIssue =
      Except.ok { pmid := "1",
                  authors := [{ lastName := "Smith", initials := "J" }],
                  article_url := "https://pubmed.ncbi.nlm.nih.gov/1/" } :=
  ⟨rfl, rfl, rfl, rfl⟩

/-- C2: for every extracted `Reference`, `article_url` is the DOI-resolver
URL `https://doi.org/` followed by `doi` when `doi` is non-empty, and
otherwise the PubMed landing URL built from `pmid`; it is never supplied
directly, only derived. -/
theorem C2_articleUrl (pmid : String) (xmlRoot : XML) (ref : Reference)
    (h : parseXML pmid xmlRoot = Except.ok ref) :
    ref.article_url =
      if ref.doi = "" then "https://pubmed.ncbi.nlm.nih.gov/" ++ pmid ++ "/"
      else "https://doi.org/" ++ ref.doi := by
  simp only [parseXML] at h
  split at h
  · exact Except.noConfusion h
  · split at h
    · exact Except.noConfusion h
    · split at h
      · exact Except.noConfusion h
      · split at h
        · exact Except.noConfusion h
        · split at h
          · exact Except.noConfusion h
          · split at h
            · exact Except.noConfusion h
            · obtain ⟨hdoi, hurl⟩ := parseArticle_spec _ _ _ _ _ h
              rw [hurl, hdoi]
              simp only [beq_iff_eq]

/-- C2 witness: the record of `xmlWithDoi` carries a DOI and its
`article_url` is the DOI-resolver form. -/
theorem C2_witness :
    refWithDoi.article_url =
      if refWithDoi.doi = "" then "https://pubmed.ncbi.nlm.nih.gov/31726262/"
      else "https://doi.org/" ++ refWithDoi.doi :=
  C2_articleUrl "31726262" xmlWithDoi refWithDoi (by rfl)

/-- C3: the claim states the pages value is the double-dash join only when
both `startPage` and `endPage` are non-empty, and otherwise equals
`startPage` exactly.  Counterexample: with `startPage` empty and `endPage`
`5` the rendered value is `--5`, not `startPage`. -/
theorem C3_counterexample :
    refPagesOnlyEnd.startPage = "" ∧ refPagesOnlyEnd.endPage ≠ "" ∧
    pagesText refPagesOnlyEnd = "--5" ∧
    pagesText refPagesOnlyEnd ≠ refPagesOnlyEnd.startPage := by decide

/-- C3 amended: the serialized pages value is `startPage ++ "--" ++ endPage`
whenever `endPage` alone is non-empty (regardless of `startPage`), and
equals `startPage` exactly otherwise; the value rendered into the output is
exactly `pagesText`. -/
theorem C3_amended : ∀ (reference : Reference) (pmid : String),
    pagesText reference =
      (if reference.endPage ≠ "" then reference.startPage ++ "--" ++ reference.endPage
       else reference.startPage) ∧
    ∃ u v, createBibtexContent reference pmid =
      u ++ appendFormattedField "pages" (pagesText reference) ++ v := by
  intro reference pmid
  constructor
  · simp only [pagesText, bne_iff_ne, ne_eq]
  · refine ⟨"% " ++ pmid ++ "\n" ++
      "@Article\x7bpmid" ++ pmid ++ ",\n" ++
      ("   title = \"\x7b" ++ sanitizeBibtexField reference.title ++ "\x7d\",\n") ++
      appendFormattedField "author" (sanitizeBibtexField (authorsText reference)) ++
      appendFormattedField "journal" (sanitizeBibtexField (theJournal reference)) ++
      appendFormattedField "volume" reference.volume ++
      appendFormattedField "number" reference.issue,
      appendFormattedField "year" reference.pbyear ++
      appendFormattedField "month" reference.pbmonth ++
      (if reference.issn != "" then appendFormattedField "issn" reference.issn
       else "") ++
      (if reference.copyright != "" then
        appendFormattedField "copyright" (sanitizeBibtexField reference.copyright)
       else "") ++
      ("   abstract = \"\x7b" ++ sanitizeBibtexField reference.abstract ++ "\x7d\",\n") ++
      ("   note = \x7b" ++ notesText reference pmid ++ "\x7d") ++
      "\n\x7d\n", ?_⟩
    simp only [createBibtexContent, String.append_assoc]

/-- C4: the claim states `sanitizeFileName` is total — the empty string and
strings reduced to empty by the removals (such as a lone question mark) are
guarded.  Counterexample: both raise `IndexError`. -/
theorem C4_counterexample :
    sanitizeFileName "" = Except.error "IndexError: string index out of range" ∧
    sanitizeFileName "?" = Except.error "IndexError: string index out of range" :=
  ⟨rfl, rfl⟩

/-- C4 amended: `sanitizeFileName` is not total: whenever the character
removals reduce the input to the empty string the unguarded trailing-dot
check raises `IndexError`; on every input whose reduced form is non-empty
the function returns a string. -/
theorem C4_amended : ∀ text : String,
    (translateFileName text = "" →
      sanitizeFileName text = Except.error "IndexError: string index out of range") ∧
    (translateFileName text ≠ "" → ∃ s, sanitizeFileName text = Except.ok s) := by
  intro text
  constructor
  · intro h
    simp only [sanitizeFileName, h]
    rfl
  · intro h
    cases hl : (translateFileName text).data.getLast? with
    | none =>
      exfalso
      apply h
      apply String.ext
      exact List.getLast?_eq_none_iff.mp hl
    | some c =>
      by_cases hc : c = '.'
      · exact ⟨_, by simp only [sanitizeFileName, hl]; rw [if_pos hc]⟩
      · exact ⟨_, by simp only [sanitizeFileName, hl]; rw [if_neg hc]⟩

/-- C4 witness: a reduced-to-empty input raises, a normal input returns. -/
theorem C4_witness :
    sanitizeFileName "?" = Except.error "IndexError: string index out of range" ∧
    ∃ s, sanitizeFileName "abc." = Except.ok s :=
  ⟨(C4_amended "?").1 rfl, (C4_amended "abc.").2 (by decide)⟩

/-- C5: the claim states `getTitle` returns the title with braces removed
whatever characters the title begins or ends with.  Counterexample: for the
title `elegant` the lstrip character set also eats the leading `ele`, so
`getTitle` returns `gant`. -/
theorem C5_counterexample :
    getTitle "title = \x7belegant\x7d,\n" = Except.ok "gant" ∧
    ("gant" : String) ≠ "elegant" := ⟨rfl, by decide⟩

/-- C5 amended: `getTitle` returns the title text with braces removed
provided the title is non-empty, contains no newline, does not begin with
any character of the lstrip set (the letters of `title`, space, equals
sign, opening brace) and does not end with any character of the rstrip set
(closing brace, comma, newline); otherwise such leading and trailing
characters are additionally stripped, because lstrip and rstrip strip
character sets, not fixed prefixes. -/
theorem C5_amended (t : List Char) (rest : String)
    (h0 : t ≠ []) (h1 : '\n' ∉ t)
    (h2 : ∀ c ∈ lstripSet, t.head? ≠ some c)
    (h3 : ∀ c ∈ rstripSet, t.getLast? ≠ some c) :
    getTitle ⟨"title = \x7b".data ++ t ++ "\x7d,\n".data ++ rest.data⟩ =
      Except.ok ⟨t.filter (fun c => !(c == '\x7b' || c == '\x7d'))⟩ := by
  have hnl : '\n' ∉ ('\x7b' :: (t ++ ['\x7d', ','])) := by
    intro hmem
    rcases List.mem_cons.mp hmem with h | h
    · exact absurd h (by decide)
    · rcases List.mem_append.mp h with h | h
      · exact h1 h
      · revert h
        decide
  have htake := takeLine_before_newline ('\x7b' :: (t ++ ['\x7d', ','])) rest.data hnl
  have hsearch := searchTitle_at_start _ _ htake
  have hL : ("title = \x7b".data ++ t ++ "\x7d,\n".data ++ rest.data : List Char) =
      titlePattern ++ (('\x7b' :: (t ++ ['\x7d', ','])) ++ '\n' :: rest.data) := by
    simp [titlePattern, List.append_assoc]
  have hs : searchTitle
      (⟨"title = \x7b".data ++ t ++ "\x7d,\n".data ++ rest.data⟩ : String).data =
      some (titlePattern ++ (('\x7b' :: (t ++ ['\x7d', ','])) ++ ['\n'])) := by
    rw [show (⟨"title = \x7b".data ++ t ++ "\x7d,\n".data ++ rest.data⟩ : String).data =
      "title = \x7b".data ++ t ++ "\x7d,\n".data ++ rest.data from rfl, hL]
    exact hsearch
  rw [getTitle_of_search _ _ hs]
  have hg : titlePattern ++ (('\x7b' :: (t ++ ['\x7d', ','])) ++ ['\n']) =
      (titlePattern ++ ['\x7b']) ++ (t ++ ['\x7d', ',', '\n']) := by
    simp [List.append_assoc]
  have hlstrip : lstripChars lstripSet
      (titlePattern ++ (('\x7b' :: (t ++ ['\x7d', ','])) ++ ['\n'])) =
      t ++ ['\x7d', ',', '\n'] := by
    rw [hg]
    apply lstripChars_strip
    · decide
    · intro c hc
      cases t with
      | nil => exact absurd rfl h0
      | cons a t' =>
        simp only [List.cons_append, List.head?_cons, Option.some.injEq] at hc
        exact fun hmem => h2 c hmem (by rw [hc]; rfl)
  have hrstrip : rstripChars rstripSet (t ++ ['\x7d', ',', '\n']) = t := by
    unfold rstripChars
    rw [List.reverse_append]
    rw [show (['\x7d', ',', '\n'] : List Char).reverse = ['\n', ',', '\x7d'] from rfl]
    rw [lstripChars_strip rstripSet ['\n', ',', '\x7d'] t.reverse (by decide)
      (fun c hc hmem => h3 c hmem (List.head?_reverse t ▸ hc))]
    exact List.reverse_reverse t
  rw [hlstrip, hrstrip]

/-- C5 witness: a title that starts and ends outside the strip sets is
recovered exactly. -/
theorem C5_witness :
    getTitle ⟨"title = \x7b".data ++ "A Study".data ++ "\x7d,\n".data ++ "".data⟩ =
      Except.ok ⟨"A Study".data.filter (fun c => !(c == '\x7b' || c == '\x7d'))⟩ :=
  C5_amended "A Study".data "" (by decide) (by decide) (by decide) (by decide)

/-- C6: `sanitizeBibtexField` is the in-order concatenation, over the code
points of the input, of the table replacement for code points that are
keys and the unchanged code point otherwise; in particular the single code
point U+00E9 is replaced by an open brace, backslash, apostrophe, braced
letter e, close brace. -/
theorem C6_escaper :
    (∀ s t : String, sanitizeBibtexField (s ++ t) =
        sanitizeBibtexField s ++ sanitizeBibtexField t) ∧
    (∀ c r, uni2tex.lookup c = some r →
        sanitizeBibtexField (String.singleton c) = r) ∧
    (∀ c, uni2tex.lookup c = none →
        sanitizeBibtexField (String.singleton c) = String.singleton c) ∧
    sanitizeBibtexField "\u00E9" = "\x7b\\\x27\x7be\x7d\x7d" := by
  refine ⟨sanitizeBibtexField_append, ?_, ?_, by decide⟩
  · intro c r h
    rw [sanitizeBibtexField_singleton, sanitizeStep, h]
    rfl
  · intro c h
    rw [sanitizeBibtexField_singleton, sanitizeStep, h]
    rfl

/-- C6 witness: concatenation splits, a key code point (the number sign) is
replaced by its table entry, a non-key code point passes unchanged. -/
theorem C6_witness :
    sanitizeBibtexField ("\u00E9" ++ "x") =
      sanitizeBibtexField "\u00E9" ++ sanitizeBibtexField "x" ∧
    sanitizeBibtexField (String.singleton '#') = "\x7b\\#\x7d" ∧
    sanitizeBibtexField (String.singleton 'x') = String.singleton 'x' :=
  ⟨C6_escaper.1 "\u00E9" "x",
   C6_escaper.2.1 '#' "\x7b\\#\x7d" (by decide),
   C6_escaper.2.2.1 'x' (by decide)⟩

/-- C7: the escaper is not idempotent: on the number sign, whose
replacement introduces braces and a backslash that are themselves table
keys, applying the escaper twice differs from applying it once. -/
theorem C7_not_idempotent :
    sanitizeBibtexField (sanitizeBibtexField "#") ≠ sanitizeBibtexField "#" := by
  decide

/-- C8: the claim states the serialized author value equals the plain
join of the formatted authors.  Counterexample: the value written into the
author field is the escaped join, which differs from the plain join as
soon as a name contains a table key such as U+00E9. -/
theorem C8_counterexample :
    authorsText refAuthorAccent = "L\u00E9, J." ∧
    sanitizeBibtexField (authorsText refAuthorAccent) = "L\x7b\\\x27\x7be\x7d\x7d, J." ∧
    sanitizeBibtexField (authorsText refAuthorAccent) ≠ authorsText refAuthorAccent := by
  decide

/-- C8 amended: the author field is always present and its serialized value
is `sanitizeBibtexField` applied to the join of the authors by the literal
separator, each author formatted as last name, comma, space, initials,
period; it equals the plain join only when no code point of the join is a
table key, and with zero authors the value is the empty string. -/
theorem C8_amended : ∀ (reference : Reference) (pmid : String),
    (∃ u v, createBibtexContent reference pmid =
      u ++ appendFormattedField "author"
            (sanitizeBibtexField (authorsText reference)) ++ v) ∧
    authorsText reference =
      String.intercalate " and " (reference.authors.map formatAuthor) ∧
    (∀ author, formatAuthor author =
      author.lastName ++ ", " ++ author.initials ++ ".") ∧
    (reference.authors = [] → sanitizeBibtexField (authorsText reference) = "") := by
  intro reference pmid
  refine ⟨?_, ?_, fun _ => rfl, ?_⟩
  · refine ⟨"% " ++ pmid ++ "\n" ++
      "@Article\x7bpmid" ++ pmid ++ ",\n" ++
      ("   title = \"\x7b" ++ sanitizeBibtexField reference.title ++ "\x7d\",\n"),
      appendFormattedField "journal" (sanitizeBibtexField (theJournal reference)) ++
      appendFormattedField "volume" reference.volume ++
      appendFormattedField "number" reference.issue ++
      appendFormattedField "pages" (pagesText reference) ++
      appendFormattedField "year" reference.pbyear ++
      appendFormattedField "month" reference.pbmonth ++
      (if reference.issn != "" then appendFormattedField "issn" reference.issn
       else "") ++
      (if reference.copyright != "" then
        appendFormattedField "copyright" (sanitizeBibtexField reference.copyright)
       else "") ++
      ("   abstract = \"\x7b" ++ sanitizeBibtexField reference.abstract ++ "\x7d\",\n") ++
      ("   note = \x7b" ++ notesText reference pmid ++ "\x7d") ++
      "\n\x7d\n", ?_⟩
    simp only [createBibtexContent, String.append_assoc]
  · cases ha : reference.authors with
    | nil => simp [authorsText, ha, String.intercalate]
    | cons a as => simp [authorsText, ha]
  · intro ha
    simp [authorsText, ha]
    rfl

/-- C8 witness: with zero authors the serialized author value is the empty
string and the field line is still rendered. -/
theorem C8_witness :
    (∃ u v, createBibtexContent refNoAuthors "1" =
      u ++ appendFormattedField "author"
            (sanitizeBibtexField (authorsText refNoAuthors)) ++ v) ∧
    sanitizeBibtexField (authorsText refNoAuthors) = "" :=
  ⟨(C8_amended refNoAuthors "1").1, (C8_amended refNoAuthors "1").2.2.2 rfl⟩

/-- C9: for every input whose translation (braces, brackets, double quote
and question mark removed, slash replaced by space) is non-empty,
`sanitizeFileName` succeeds and returns the translation with exactly one
trailing dot stripped when it ends with one, unchanged otherwise. -/
theorem C9_sanitizeFileName : ∀ text : String, translateFileName text ≠ "" →
    ∃ r, sanitizeFileName text = Except.ok r ∧
      (((translateFileName text).data.getLast? = some '.' ∧
        (translateFileName text).data = r.data ++ ['.']) ∨
       ((translateFileName text).data.getLast? ≠ some '.' ∧
        r = translateFileName text)) := by
  intro text h
  have hne : (translateFileName text).data ≠ [] := by
    intro hdata
    exact h (String.ext hdata)
  cases hl : (translateFileName text).data.getLast? with
  | none => exact absurd (List.getLast?_eq_none_iff.mp hl) hne
  | some c =>
    by_cases hc : c = '.'
    · refine ⟨⟨(translateFileName text).data.dropLast⟩,
        by simp only [sanitizeFileName, hl]; rw [if_pos hc],
        Or.inl ⟨congrArg some hc, ?_⟩⟩
      have hsplit := List.dropLast_append_getLast hne
      rw [List.getLast?_eq_getLast _ hne] at hl
      injection hl with hl2
      rw [hl2, hc] at hsplit
      exact hsplit.symm
    · exact ⟨translateFileName text,
        by simp only [sanitizeFileName, hl]; rw [if_neg hc],
        Or.inr ⟨fun hx => hc (Option.some.inj hx), rfl⟩⟩

/-- C9 witness: the example of the specification, a title with a slash and
a trailing dot. -/
theorem C9_witness :
    translateFileName "Effects of A/B on C." ≠ "" ∧
    sanitizeFileName "Effects of A/B on C." = Except.ok "Effects of A B on C" ∧
    (∃ r, sanitizeFileName "Effects of A/B on C." = Except.ok r ∧
      (((translateFileName "Effects of A/B on C.").data.getLast? = some '.' ∧
        (translateFileName "Effects of A/B on C.").data = r.data ++ ['.']) ∨
       ((translateFileName "Effects of A/B on C.").data.getLast? ≠ some '.' ∧
        r = translateFileName "Effects of A/B on C."))) :=
  ⟨by decide, by rfl, C9_sanitizeFileName "Effects of A/B on C." (by decide)⟩

/-- C10: the serializer escapes only the title, author, journal, copyright
and abstract values, while the volume, number, pages, year, month and issn
values are written into the output verbatim: the output decomposes around
each rendered field line, with the raw reference value in the verbatim
lines and `sanitizeBibtexField` applied in the escaped lines. -/
theorem C10_fields : ∀ (reference : Reference) (pmid : String),
    (∃ u v, createBibtexContent reference pmid =
      u ++ (appendFormattedField "volume" reference.volume ++
            appendFormattedField "number" reference.issue ++
            appendFormattedField "pages" (pagesText reference) ++
            appendFormattedField "year" reference.pbyear ++
            appendFormattedField "month" reference.pbmonth) ++ v) ∧
    (reference.issn ≠ "" → ∃ u v, createBibtexContent reference pmid =
      u ++ appendFormattedField "issn" reference.issn ++ v) ∧
    (reference.copyright ≠ "" → ∃ u v, createBibtexContent reference pmid =
      u ++ appendFormattedField "copyright"
            (sanitizeBibtexField reference.copyright) ++ v) ∧
    (∃ u v, createBibtexContent reference pmid =
      u ++ ("   title = \"\x7b" ++ sanitizeBibtexField reference.title ++ "\x7d\",\n" ++
            appendFormattedField "author" (sanitizeBibtexField (authorsText reference)) ++
            appendFormattedField "journal" (sanitizeBibtexField (theJournal reference))) ++ v) ∧
    (∃ u v, createBibtexContent reference pmid =
      u ++ ("   abstract = \"\x7b" ++ sanitizeBibtexField reference.abstract ++ "\x7d\",\n") ++ v) := by
  intro reference pmid
  refine ⟨?_, ?_, ?_, ?_, ?_⟩
  · refine ⟨"% " ++ pmid ++ "\n" ++
      "@Article\x7bpmid" ++ pmid ++ ",\n" ++
      ("   title = \"\x7b" ++ sanitizeBibtexField reference.title ++ "\x7d\",\n") ++
      appendFormattedField "author" (sanitizeBibtexField (authorsText reference)) ++
      appendFormattedField "journal" (sanitizeBibtexField (theJournal reference)),
      (if reference.issn != "" then appendFormattedField "issn" reference.issn
       else "") ++
      (if reference.copyright != "" then
        appendFormattedField "copyright" (sanitizeBibtexField reference.copyright)
       else "") ++
      ("   abstract = \"\x7b" ++ sanitizeBibtexField reference.abstract ++ "\x7d\",\n") ++
      ("   note = \x7b" ++ notesText reference pmid ++ "\x7d") ++
      "\n\x7d\n", ?_⟩
    simp only [createBibtexContent, String.append_assoc]
  · intro hissn
    refine ⟨"% " ++ pmid ++ "\n" ++
      "@Article\x7bpmid" ++ pmid ++ ",\n" ++
      ("   title = \"\x7b" ++ sanitizeBibtexField reference.title ++ "\x7d\",\n") ++
      appendFormattedField "author" (sanitizeBibtexField (authorsText reference)) ++
      appendFormattedField "journal" (sanitizeBibtexField (theJournal reference)) ++
      appendFormattedField "volume" reference.volume ++
      appendFormattedField "number" reference.issue ++
      appendFormattedField "pages" (pagesText reference) ++
      appendFormattedField "year" reference.pbyear ++
      appendFormattedField "month" reference.pbmonth,
      (if reference.copyright != "" then
        appendFormattedField "copyright" (sanitizeBibtexField reference.copyright)
       else "") ++
      ("   abstract = \"\x7b" ++ sanitizeBibtexField reference.abstract ++ "\x7d\",\n") ++
      ("   note = \x7b" ++ notesText reference pmid ++ "\x7d") ++
      "\n\x7d\n", ?_⟩
    rw [createBibtexContent, if_pos (bne_iff_ne.mpr hissn)]
    simp only [String.append_assoc]
  · intro hcopy
    refine ⟨"% " ++ pmid ++ "\n" ++
      "@Article\x7bpmid" ++ pmid ++ ",\n" ++
      ("   title = \"\x7b" ++ sanitizeBibtexField reference.title ++ "\x7d\",\n") ++
      appendFormattedField "author" (sanitizeBibtexField (authorsText reference)) ++
      appendFormattedField "journal" (sanitizeBibtexField (theJournal reference)) ++
      appendFormattedField "volume" reference.volume ++
      appendFormattedField "number" reference.issue ++
      appendFormattedField "pages" (pagesText reference) ++
      appendFormattedField "year" reference.pbyear ++
      appendFormattedField "month" reference.pbmonth ++
      (if reference.issn != "" then appendFormattedField "issn" reference.issn
       else ""),
      ("   abstract = \"\x7b" ++ sanitizeBibtexField reference.abstract ++ "\x7d\",\n") ++
      ("   note = \x7b" ++ notesText reference pmid ++ "\x7d") ++
      "\n\x7d\n", ?_⟩
    rw [createBibtexContent, if_pos (bne_iff_ne.mpr hcopy)]
    simp only [String.append_assoc]
  · refine ⟨"% " ++ pmid ++ "\n" ++ "@Article\x7bpmid" ++ pmid ++ ",\n",
      appendFormattedField "volume" reference.volume ++
      appendFormattedField "number" reference.issue ++
      appendFormattedField "pages" (pagesText reference) ++
      appendFormattedField "year" reference.pbyear ++
      appendFormattedField "month" reference.pbmonth ++
      (if reference.issn != "" then appendFormattedField "issn" reference.issn
       else "") ++
      (if reference.copyright != "" then
        appendFormattedField "copyright" (sanitizeBibtexField reference.copyright)
       else "") ++
      ("   abstract = \"\x7b" ++ sanitizeBibtexField reference.abstract ++ "\x7d\",\n") ++
      ("   note = \x7b" ++ notesText reference pmid ++ "\x7d") ++
      "\n\x7d\n", ?_⟩
    simp only [createBibtexContent, String.append_assoc]
  · refine ⟨"% " ++ pmid ++ "\n" ++
      "@Article\x7bpmid" ++ pmid ++ ",\n" ++
      ("   title = \"\x7b" ++ sanitizeBibtexField reference.title ++ "\x7d\",\n") ++
      appendFormattedField "author" (sanitizeBibtexField (authorsText reference)) ++
      appendFormattedField "journal" (sanitizeBibtexField (theJournal reference)) ++
      appendFormattedField "volume" reference.volume ++
      appendFormattedField "number" reference.issue ++
      appendFormattedField "pages" (pagesText reference) ++
      appendFormattedField "year" reference.pbyear ++
      appendFormattedField "month" reference.pbmonth ++
      (if reference.issn != "" then appendFormattedField "issn" reference.issn
       else "") ++
      (if reference.copyright != "" then
        appendFormattedField "copyright" (sanitizeBibtexField reference.copyright)
       else ""),
      ("   note = \x7b" ++ notesText reference pmid ++ "\x7d") ++
      "\n\x7d\n", ?_⟩
    simp only [createBibtexContent, String.append_assoc]

/-- C10 witness: the conditional issn and copyright lines for a reference
carrying both. -/
theorem C10_witness :
    (∃ u v, createBibtexContent refFull "1" =
      u ++ appendFormattedField "issn" refFull.issn ++ v) ∧
    (∃ u v, createBibtexContent refFull "1" =
      u ++ appendFormattedField "copyright"
            (sanitizeBibtexField refFull.copyright) ++ v) :=
  ⟨(C10_fields refFull "1").2.1 (by decide), (C10_fields refFull "1").2.2.1 (by decide)⟩
